import Mathlib

/-!
Verification of the PocketDarwin partition-table discovery and recovery engine.

This file gives a shallow embedding, in Lean 4, of the partition code of the
repository: the CRC32 checksum engine, the GPT header/entry validation and
restoration logic of the GPT parser, and the MBR/EBR parser.  All machine
integers are modelled as `Nat`, with an explicit `% 2^w` where the C code can
overflow in a way that matters (the `u32` multiplication computing the byte
size of the partition-entry array).  The block device is modelled as a byte
content function together with a log of the read/write operations issued; the
`read_disk` callback of the device is modelled as always succeeding (the
repository's devices are caller-supplied stubs), and the `alloc_pool`
allocator — a `TODO` stub in the source — is modelled as always succeeding,
so the out-of-memory early exits are not represented.
-/

namespace PocketDarwin

/-! ## Little-endian byte primitives

The C code overlays packed structs on raw byte buffers.  We model buffers as
`List Nat` of byte values and decode/encode fields with explicit little-endian
arithmetic, mirroring the packed struct layouts byte for byte.
-/

/-- The `w` little-endian bytes of the value `v` (truncates to `2^(8*w)`). -/
def leBytes : Nat → Nat → List Nat
  | 0, _ => []
  | w + 1, v => v % 256 :: leBytes w (v / 256)

/-- Combine a little-endian byte list back into a value. -/
def leVal : List Nat → Nat
  | [] => 0
  | b :: bs => b % 256 + 256 * leVal bs

/-- Read a `w`-byte little-endian field at byte offset `off`. -/
def readLE (b : List Nat) (off w : Nat) : Nat :=
  leVal ((b.drop off).take w)

/-- Overwrite bytes of a buffer starting at offset `off`, keeping the buffer
length fixed (data running past the end of the buffer is dropped), as a store
into a fixed-size C buffer behaves. -/
def overwrite : List Nat → Nat → List Nat → List Nat
  | [], _, _ => []
  | l, _, [] => l
  | _ :: xs, 0, v :: vs => v :: overwrite xs 0 vs
  | x :: xs, o + 1, vs => x :: overwrite xs o vs

/-- A buffer of exactly `n` bytes holding `l` (zero-padded, truncated),
modelling `alloc_zero_pool(n)` followed by a `memcpy` of `l`. -/
def bufN (n : Nat) (l : List Nat) : List Nat :=
  l.take n ++ List.replicate (n - l.length) 0

/-! ## Checksum engine

Table-driven CRC32 exactly as in `calculate_crc32` of the GPT parser (the
table below is the full 256-entry table written out in the source).
-/

/-- The file-scope `crc32_table` constant of the source. -/
def crc32_table : List Nat :=
  [
    0x00000000, 0x77073096, 0xEE0E612C, 0x990951BA, 0x076DC419, 0x706AF48F,
    0xE963A535, 0x9E6495A3, 0x0EDB8832, 0x79DCB8A4, 0xE0D5E91E, 0x97D2D988,
    0x09B64C2B, 0x7EB17CBD, 0xE7B82D07, 0x90BF1D91, 0x1DB71064, 0x6AB020F2,
    0xF3B97148, 0x84BE41DE, 0x1ADAD47D, 0x6DDDE4EB, 0xF4D4B551, 0x83D385C7,
    0x136C9856, 0x646BA8C0, 0xFD62F97A, 0x8A65C9EC, 0x14015C4F, 0x63066CD9,
    0xFA0F3D63, 0x8D080DF5, 0x3B6E20C8, 0x4C69105E, 0xD56041E4, 0xA2677172,
    0x3C03E4D1, 0x4B04D447, 0xD20D85FD, 0xA50AB56B, 0x35B5A8FA, 0x42B2986C,
    0xDBBBC9D6, 0xACBCF940, 0x32D86CE3, 0x45DF5C75, 0xDCD60DCF, 0xABD13D59,
    0x26D930AC, 0x51DE003A, 0xC8D75180, 0xBFD06116, 0x21B4F4B5, 0x56B3C423,
    0xCFBA9599, 0xB8BDA50F, 0x2802B89E, 0x5F058808, 0xC60CD9B2, 0xB10BE924,
    0x2F6F7C87, 0x58684C11, 0xC1611DAB, 0xB6662D3D, 0x76DC4190, 0x01DB7106,
    0x98D220BC, 0xEFD5102A, 0x71B18589, 0x06B6B51F, 0x9FBFE4A5, 0xE8B8D433,
    0x7807C9A2, 0x0F00F934, 0x9609A88E, 0xE10E9818, 0x7F6A0DBB, 0x086D3D2D,
    0x91646C97, 0xE6635C01, 0x6B6B51F4, 0x1C6C6162, 0x856530D8, 0xF262004E,
    0x6C0695ED, 0x1B01A57B, 0x8208F4C1, 0xF50FC457, 0x65B0D9C6, 0x12B7E950,
    0x8BBEB8EA, 0xFCB9887C, 0x62DD1DDF, 0x15DA2D49, 0x8CD37CF3, 0xFBD44C65,
    0x4DB26158, 0x3AB551CE, 0xA3BC0074, 0xD4BB30E2, 0x4ADFA541, 0x3DD895D7,
    0xA4D1C46D, 0xD3D6F4FB, 0x4369E96A, 0x346ED9FC, 0xAD678846, 0xDA60B8D0,
    0x44042D73, 0x33031DE5, 0xAA0A4C5F, 0xDD0D7CC9, 0x5005713C, 0x270241AA,
    0xBE0B1010, 0xC90C2086, 0x5768B525, 0x206F85B3, 0xB966D409, 0xCE61E49F,
    0x5EDEF90E, 0x29D9C998, 0xB0D09822, 0xC7D7A8B4, 0x59B33D17, 0x2EB40D81,
    0xB7BD5C3B, 0xC0BA6CAD, 0xEDB88320, 0x9ABFB3B6, 0x03B6E20C, 0x74B1D29A,
    0xEAD54739, 0x9DD277AF, 0x04DB2615, 0x73DC1683, 0xE3630B12, 0x94643B84,
    0x0D6D6A3E, 0x7A6A5AA8, 0xE40ECF0B, 0x9309FF9D, 0x0A00AE27, 0x7D079EB1,
    0xF00F9344, 0x8708A3D2, 0x1E01F268, 0x6906C2FE, 0xF762575D, 0x806567CB,
    0x196C3671, 0x6E6B06E7, 0xFED41B76, 0x89D32BE0, 0x10DA7A5A, 0x67DD4ACC,
    0xF9B9DF6F, 0x8EBEEFF9, 0x17B7BE43, 0x60B08ED5, 0xD6D6A3E8, 0xA1D1937E,
    0x38D8C2C4, 0x4FDFF252, 0xD1BB67F1, 0xA6BC5767, 0x3FB506DD, 0x48B2364B,
    0xD80D2BDA, 0xAF0A1B4C, 0x36034AF6, 0x41047A60, 0xDF60EFC3, 0xA867DF55,
    0x316E8EEF, 0x4669BE79, 0xCB61B38C, 0xBC66831A, 0x256FD2A0, 0x5268E236,
    0xCC0C7795, 0xBB0B4703, 0x220216B9, 0x5505262F, 0xC5BA3BBE, 0xB2BD0B28,
    0x2BB45A92, 0x5CB36A04, 0xC2D7FFA7, 0xB5D0CF31, 0x2CD99E8B, 0x5BDEAE1D,
    0x9B64C2B0, 0xEC63F226, 0x756AA39C, 0x026D930A, 0x9C0906A9, 0xEB0E363F,
    0x72076785, 0x05005713, 0x95BF4A82, 0xE2B87A14, 0x7BB12BAE, 0x0CB61B38,
    0x92D28E9B, 0xE5D5BE0D, 0x7CDCEFB7, 0x0BDBDF21, 0x86D3D2D4, 0xF1D4E242,
    0x68DDB3F8, 0x1FDA836E, 0x81BE16CD, 0xF6B9265B, 0x6FB077E1, 0x18B74777,
    0x88085AE6, 0xFF0F6A70, 0x66063BCA, 0x11010B5C, 0x8F659EFF, 0xF862AE69,
    0x616BFFD3, 0x166CCF45, 0xA00AE278, 0xD70DD2EE, 0x4E048354, 0x3903B3C2,
    0xA7672661, 0xD06016F7, 0x4969474D, 0x3E6E77DB, 0xAED16A4A, 0xD9D65ADC,
    0x40DF0B66, 0x37D83BF0, 0xA9BCAE53, 0xDEBB9EC5, 0x47B2CF7F, 0x30B5FFE9,
    0xBDBDF21C, 0xCABAC28A, 0x53B39330, 0x24B4A3A6, 0xBAD03605, 0xCDD70693,
    0x54DE5729, 0x23D967BF, 0xB3667A2E, 0xC4614AB8, 0x5D681B02, 0x2A6F2B94,
    0xB40BBE37, 0xC30C8EA1, 0x5A05DF1B, 0x2D02EF8D
  ]

/-- The function `calculate_crc32(data, length)`: all-ones initial accumulator, reflected
table lookup per byte, final inversion. -/
def calculate_crc32 (data : List Nat) : Nat :=
  (data.foldl
    (fun crc b => (crc32_table.getD ((crc ^^^ b) % 256) 0) ^^^ (crc >>> 8))
    0xFFFFFFFF) ^^^ 0xFFFFFFFF

/-! ## Block device model

Both drivers use
`read_disk(dev, media_id, byte_offset, byte_size, buffer)` /
`write_disk(...)` callbacks plus fixed `block_size` and `total_sectors`
attributes.  A device is modelled by its byte content; reads return content
bytes and writes update them.  Every operation performed is logged, so
theorems can speak about which reads/writes a discovery call issued.
-/

/-- Status codes of the GPT/MBR drivers (one Lean type covers both enums;
only the constructors compared by the claims matter). -/
inductive Status where
  | success
  | error
  | notFound
  | crcError
  | invalidParam
  | outOfMemory
  | overlapErr
  | outOfRange
  | mediaChanged
  | noMedia
deriving DecidableEq, Repr

/-- A block device: fixed geometry plus current byte content. -/
structure Disk where
  block_size : Nat
  total_sectors : Nat
  content : Nat → Nat

/-- One logged device operation (byte offset and byte size/data). -/
inductive DiskOp where
  | read (offset size : Nat)
  | write (offset : Nat) (data : List Nat)
deriving DecidableEq, Repr

def DiskOp.isWrite : DiskOp → Bool
  | .write _ _ => true
  | .read _ _ => false

/-- The write operations of a log. -/
def writesOf (ops : List DiskOp) : List DiskOp := ops.filter DiskOp.isWrite

/-- Model of `read_disk`: `n` bytes starting at byte offset `off`. -/
def Disk.readBytes (d : Disk) (off n : Nat) : List Nat :=
  (List.range n).map fun i => d.content (off + i) % 256

/-- Model of `write_disk`: store `data` at byte offset `off`. -/
def Disk.writeAt (d : Disk) (off : Nat) (data : List Nat) : Disk :=
  { d with
    content := fun a =>
      if off ≤ a ∧ a < off + data.length then data.getD (a - off) 0
      else d.content a }

/-! ## GPT structures -/

/-- The on-disk byte offsets of the packed `gpt_header_t` fields:
signature 0, revision 8, header_size 12, header_crc32 16, reserved 20,
my_lba 24, alternate_lba 32, first_usable_lba 40, last_usable_lba 48,
disk_guid 56 (16 bytes), partition_entry_lba 72, num_partition_entries 80,
partition_entry_size 84, partition_array_crc32 88; total size 92. -/
structure GptHeader where
  signature : Nat
  revision : Nat
  header_size : Nat
  header_crc32 : Nat
  reserved : Nat
  my_lba : Nat
  alternate_lba : Nat
  first_usable_lba : Nat
  last_usable_lba : Nat
  disk_guid : List Nat
  partition_entry_lba : Nat
  num_partition_entries : Nat
  partition_entry_size : Nat
  partition_array_crc32 : Nat
deriving DecidableEq, Repr

instance : Inhabited GptHeader :=
  ⟨⟨0, 0, 0, 0, 0, 0, 0, 0, 0, List.replicate 16 0, 0, 0, 0, 0⟩⟩

/-- The signature `"EFI PART"` as a 64-bit little-endian value. -/
def GPT_HEADER_SIGNATURE : Nat := 0x5452415020494645

def PRIMARY_PART_HEADER_LBA : Nat := 1

/-- Decode a `gpt_header_t` overlayed on a byte buffer. -/
def parseGptHeader (b : List Nat) : GptHeader where
  signature := readLE b 0 8
  revision := readLE b 8 4
  header_size := readLE b 12 4
  header_crc32 := readLE b 16 4
  reserved := readLE b 20 4
  my_lba := readLE b 24 8
  alternate_lba := readLE b 32 8
  first_usable_lba := readLE b 40 8
  last_usable_lba := readLE b 48 8
  disk_guid := (b.drop 56).take 16
  partition_entry_lba := readLE b 72 8
  num_partition_entries := readLE b 80 4
  partition_entry_size := readLE b 84 4
  partition_array_crc32 := readLE b 88 4

/-- Serialize a `gpt_header_t` into its 92 packed bytes. -/
def serializeGptHeader (h : GptHeader) : List Nat :=
  leBytes 8 h.signature ++ leBytes 4 h.revision ++ leBytes 4 h.header_size ++
  leBytes 4 h.header_crc32 ++ leBytes 4 h.reserved ++ leBytes 8 h.my_lba ++
  leBytes 8 h.alternate_lba ++ leBytes 8 h.first_usable_lba ++
  leBytes 8 h.last_usable_lba ++ bufN 16 h.disk_guid ++
  leBytes 8 h.partition_entry_lba ++ leBytes 4 h.num_partition_entries ++
  leBytes 4 h.partition_entry_size ++ leBytes 4 h.partition_array_crc32

/-- The packed `gpt_partition_entry_t`: type GUID 0 (16 bytes), unique GUID
16 (16 bytes), starting_lba 32, ending_lba 40, attributes 48, name 56
(36 UTF-16 code units = 72 bytes); total size 128. -/
structure GptEntry where
  partition_type_guid : List Nat
  unique_guid : List Nat
  starting_lba : Nat
  ending_lba : Nat
  attributes : Nat
  partition_name : List Nat
deriving DecidableEq, Repr

instance : Inhabited GptEntry :=
  ⟨⟨List.replicate 16 0, List.replicate 16 0, 0, 0, 0, List.replicate 72 0⟩⟩

def parseGptEntry (b : List Nat) : GptEntry where
  partition_type_guid := b.take 16
  unique_guid := (b.drop 16).take 16
  starting_lba := readLE b 32 8
  ending_lba := readLE b 40 8
  attributes := readLE b 48 8
  partition_name := (b.drop 56).take 72

/-- The value `sizeof(gpt_partition_entry_t)` = 128 bytes. -/
def GPT_ENTRY_STRUCT_SIZE : Nat := 128

/-- The constant `GUID_UNUSED` as its 16 zero bytes; `compare_guid(t, &GUID_UNUSED)`. -/
def isUnusedGuid (g : List Nat) : Bool := g == List.replicate 16 0

/-- The constant `GUID_EFI_SYSTEM` as its 16 packed bytes (fields little-endian). -/
def GUID_EFI_SYSTEM_BYTES : List Nat :=
  [0x28, 0x73, 0x2A, 0xC1, 0x1F, 0xF8, 0xD2, 0x11,
   0xBA, 0x4B, 0x00, 0xA0, 0xC9, 0x3E, 0xC9, 0x3B]

/-! ## CRC validation routines (`check_header_crc`, `set_header_crc`) -/

/-- The routine `check_header_crc(max_size, size, header)`, operating on the raw header
buffer: rejects a zero `size` or (when `max_size` is nonzero) a `size`
exceeding `max_size`; otherwise zeroes the stored CRC field (bytes 16..19),
recomputes the CRC over the first `size` bytes, stores the recomputed value
back into the field, and compares it with the original.  Returns the
comparison result together with the buffer as the routine leaves it. -/
def check_header_crc (max_size size : Nat) (b : List Nat) : Bool × List Nat :=
  if size = 0 then (false, b)
  else if max_size ≠ 0 ∧ max_size < size then (false, b)
  else
    let original_crc := readLE b 16 4
    let zeroed := overwrite b 16 (leBytes 4 0)
    let calculated_crc := calculate_crc32 (zeroed.take size)
    (original_crc == calculated_crc, overwrite zeroed 16 (leBytes 4 calculated_crc))

/-! ## GPT validation -/

/-- The routine `validate_gpt_entry_array_crc(dev, header)`: read the whole entry array
from the header's declared location and compare its CRC against the stored
`partition_array_crc32`.  The byte size `num_partition_entries *
partition_entry_size` is a `u32` product in the source, hence `% 2^32`. -/
def validate_gpt_entry_array_crc (d : Disk) (h : GptHeader) :
    Bool × List DiskOp :=
  let entries_size := (h.num_partition_entries * h.partition_entry_size) % 2 ^ 32
  let offset := h.partition_entry_lba * d.block_size
  let entries := d.readBytes offset entries_size
  (h.partition_array_crc32 == calculate_crc32 entries,
   [DiskOp.read offset entries_size])

/-- The routine `validate_gpt_table(dev, lba, header_out)`: read one block at `lba` and
run the validation chain (signature, header CRC, self-reported LBA, entry
size, entry-count overflow, entry-array CRC).  Returns the validated header
(the buffer copy after `check_header_crc` ran on it) or `none`, plus the
operation log. -/
def validate_gpt_table (d : Disk) (lba : Nat) : Option GptHeader × List DiskOp :=
  let block_size := d.block_size
  let offset := lba * block_size
  let b := d.readBytes offset block_size
  let ops0 := [DiskOp.read offset block_size]
  -- each `if C then … else (none, _)` is an early `return false` on ¬C
  if readLE b 0 8 = GPT_HEADER_SIGNATURE then
    let checked := check_header_crc block_size (readLE b 12 4) b
    if checked.1 then
      let header := parseGptHeader checked.2
      if header.my_lba = lba then
        if GPT_ENTRY_STRUCT_SIZE ≤ header.partition_entry_size then
          if header.num_partition_entries
              ≤ 0xFFFFFFFFFFFFFFFF / header.partition_entry_size then
            let arr := validate_gpt_entry_array_crc d header
            if arr.1 then (some header, ops0 ++ arr.2)
            else (none, ops0 ++ arr.2)
          else (none, ops0)
        else (none, ops0)
      else (none, ops0)
    else (none, ops0)
  else (none, ops0)

/-! ## GPT entry sanity checking (`check_gpt_entries`) -/

/-- The transient `partition_entry_status_t` flags. -/
structure EntryStatusFlags where
  out_of_range : Bool := false
  overlap : Bool := false
  os_specific : Bool := false
deriving DecidableEq, Repr

instance : Inhabited EntryStatusFlags := ⟨{}⟩

/-- Point update of the status array (modelled as a function). -/
def statusUpdate (st : Nat → EntryStatusFlags) (k : Nat)
    (f : EntryStatusFlags → EntryStatusFlags) : Nat → EntryStatusFlags :=
  fun m => if m = k then f (st m) else st m

/-- The out-of-range test of `check_gpt_entries`. -/
def entryOutOfRange (h : GptHeader) (e : GptEntry) : Bool :=
  decide (e.ending_lba < e.starting_lba) ||
  decide (e.starting_lba < h.first_usable_lba) ||
  decide (h.last_usable_lba < e.starting_lba) ||
  decide (e.ending_lba < h.first_usable_lba) ||
  decide (h.last_usable_lba < e.ending_lba)

/-- Inner loop body of `check_gpt_entries`: compare entry `j` against the
fixed entry `i` (with bounds `start_lba`/`end_lba`) and flag both on
overlap. -/
def overlapInnerStep (start_lba end_lba : Nat) (i : Nat)
    (entries : List GptEntry) (st : Nat → EntryStatusFlags) (j : Nat) :
    Nat → EntryStatusFlags :=
  let other := entries.getD j default
  if isUnusedGuid other.partition_type_guid then st
  else if start_lba ≤ other.ending_lba ∧ other.starting_lba ≤ end_lba then
    statusUpdate (statusUpdate st i fun f => { f with overlap := true }) j
      fun f => { f with overlap := true }
  else st

/-- Outer loop body of `check_gpt_entries` for index `i`: skip unused
entries, flag (and skip the rest for) out-of-range entries, flag OS-specific
entries, then run the overlap scan against all later indices. -/
def checkEntryStep (h : GptHeader) (entries : List GptEntry)
    (st : Nat → EntryStatusFlags) (i : Nat) : Nat → EntryStatusFlags :=
  let e := entries.getD i default
  if isUnusedGuid e.partition_type_guid then st
  else if entryOutOfRange h e then
    statusUpdate st i fun f => { f with out_of_range := true }
  else
    let st1 :=
      if e.attributes.testBit 1 then
        statusUpdate st i fun f => { f with os_specific := true }
      else st
    (List.range' (i + 1) (h.num_partition_entries - (i + 1))).foldl
      (overlapInnerStep e.starting_lba e.ending_lba i entries) st1

/-- The routine `check_gpt_entries(header, entries, entry_status)`. -/
def check_gpt_entries (h : GptHeader) (entries : List GptEntry) :
    Nat → EntryStatusFlags :=
  (List.range h.num_partition_entries).foldl (checkEntryStep h entries)
    fun _ => default

/-! ## GPT restoration (`restore_gpt_table`) -/

/-- The routine `restore_gpt_table(dev, header)`: rebuild the twin copy from the
validated source `header`.  Returns the restore success flag, the device
after the writes, and the operation log. -/
def restore_gpt_table (d : Disk) (h : GptHeader) :
    Bool × Disk × List DiskOp :=
  let block_size := d.block_size
  let new_entry_lba :=
    if h.my_lba = PRIMARY_PART_HEADER_LBA then h.last_usable_lba + 1
    else PRIMARY_PART_HEADER_LBA + 1
  let nh := { h with
    my_lba := h.alternate_lba
    alternate_lba := h.my_lba
    partition_entry_lba := new_entry_lba }
  -- alloc_zero_pool(block_size), memcpy of the header, field updates …
  let buf0 := bufN block_size (serializeGptHeader nh)
  -- … then set_header_crc(new_header->header_size, new_header)
  let buf1 := overwrite buf0 16 (leBytes 4 0)
  let crc := calculate_crc32 (buf1.take nh.header_size)
  let buf := overwrite buf1 16 (leBytes 4 crc)
  let header_offset := nh.my_lba * block_size
  let d1 := d.writeAt header_offset buf
  let entries_size := (h.num_partition_entries * h.partition_entry_size) % 2 ^ 32
  let entries_offset := h.partition_entry_lba * block_size
  let entries := d1.readBytes entries_offset entries_size
  let d2 := d1.writeAt (new_entry_lba * block_size) entries
  (true, d2,
   [DiskOp.write header_offset buf,
    DiskOp.read entries_offset entries_size,
    DiskOp.write (new_entry_lba * block_size) entries])

/-! ## GPT discovery (`discover_gpt_partitions`) -/

/-- The `gpt_partition_info_t` output record. -/
structure GptPartInfo where
  type_guid : List Nat
  unique_guid : List Nat
  start_lba : Nat
  end_lba : Nat
  size_sectors : Nat
  attributes : Nat
  name : List Nat
  partition_number : Nat
  is_system : Bool
  is_bootable : Bool
deriving DecidableEq, Repr

/-- The conversion `utf16_to_ascii(dest, src, 128)` on the 36 UTF-16LE code units of a
name field: stop at the first NUL (or at 127 characters), map non-ASCII
code units to `?`. -/
def utf16_to_ascii (nameBytes : List Nat) : List Nat :=
  let units := (List.range 36).map fun k => readLE nameBytes (2 * k) 2
  ((units.takeWhile fun c => c ≠ 0).take 127).map fun c =>
    if c < 128 then c else 63

/-- The packed `mbr_partition_t` slot of the protective-MBR check:
boot_indicator 0, os_indicator 4, starting_lba 8, size_in_lba 12 inside a
16-byte slot; slot `i` lives at byte offset `446 + 16*i` of the block. -/
structure MbrSlot where
  boot_indicator : Nat
  os_indicator : Nat
  starting_lba : Nat
  size_in_lba : Nat
deriving DecidableEq, Repr

def parseMbrSlot (b : List Nat) (i : Nat) : MbrSlot where
  boot_indicator := (b.drop (446 + 16 * i)).headD 0
  os_indicator := (b.drop (446 + 16 * i + 4)).headD 0
  starting_lba := readLE b (446 + 16 * i + 8) 4
  size_in_lba := readLE b (446 + 16 * i + 12) 4

def PMBR_GPT_PARTITION : Nat := 0xEE

def MBR_STRUCT_SIZE : Nat := 512

/-- The protective-MBR scan of `discover_gpt_partitions`: some slot has
boot indicator `0x00`, OS indicator `0xEE` and starting LBA 1. -/
def hasGptProtectivePart (b : List Nat) : Bool :=
  (List.range 4).any fun i =>
    let s := parseMbrSlot b i
    s.boot_indicator == 0x00 && s.os_indicator == PMBR_GPT_PARTITION &&
      s.starting_lba == 1

/-- Decode the partition-entry array at its declared per-entry stride. -/
def parseGptEntries (eb : List Nat) (h : GptHeader) : List GptEntry :=
  (List.range h.num_partition_entries).map fun i =>
    parseGptEntry (eb.drop (i * h.partition_entry_size))

/-- Build one `gpt_partition_info_t` from entry `e` at index `i`. -/
def mkGptPartInfo (e : GptEntry) (i : Nat) : GptPartInfo where
  type_guid := e.partition_type_guid
  unique_guid := e.unique_guid
  start_lba := e.starting_lba
  end_lba := e.ending_lba
  size_sectors := e.ending_lba - e.starting_lba + 1
  attributes := e.attributes
  name := utf16_to_ascii e.partition_name
  partition_number := i + 1
  is_system := e.partition_type_guid == GUID_EFI_SYSTEM_BYTES
  is_bootable := e.attributes.testBit 2

/-- The final enumeration loop of `discover_gpt_partitions`: skip unused,
out-of-range, overlapping and OS-specific entries, bounded by
`max_partitions`. -/
def gptEmitLoop (h : GptHeader) (entries : List GptEntry)
    (st : Nat → EntryStatusFlags) (max_partitions : Nat) : List GptPartInfo :=
  (List.range h.num_partition_entries).foldl
    (fun acc i =>
      if max_partitions ≤ acc.length then acc
      else
        let e := entries.getD i default
        if isUnusedGuid e.partition_type_guid || (st i).out_of_range ||
            (st i).overlap || (st i).os_specific then acc
        else acc ++ [mkGptPartInfo e i])
    []

/-- Result of one `discover_gpt_partitions` call: status, emitted partition
list, operation log, and the device as the call leaves it. -/
structure GptDiscovery where
  status : Status
  parts : List GptPartInfo
  ops : List DiskOp
  disk : Disk

/-- The tail of `discover_gpt_partitions` once a header has been selected:
read the entry array, run `check_gpt_entries`, emit the surviving entries. -/
def gptEnumerate (d : Disk) (h : GptHeader) (max_partitions : Nat)
    (ops : List DiskOp) : GptDiscovery :=
  let entries_size := (h.num_partition_entries * h.partition_entry_size) % 2 ^ 32
  let offset := h.partition_entry_lba * d.block_size
  let eb := d.readBytes offset entries_size
  let entries := parseGptEntries eb h
  let st := check_gpt_entries h entries
  { status := .success
    parts := gptEmitLoop h entries st max_partitions
    ops := ops ++ [DiskOp.read offset entries_size]
    disk := d }

/-- The routine `discover_gpt_partitions(dev, partitions, num_partitions,
max_partitions)`: block-size guard, protective-MBR gate, primary/backup
cross-validation with one-shot restoration, then entry enumeration. -/
def discover_gpt_partitions (d : Disk) (max_partitions : Nat) : GptDiscovery :=
  let block_size := d.block_size
  let last_block :=
    if d.total_sectors = 0 then 2 ^ 64 - 1 else d.total_sectors - 1
  if block_size < MBR_STRUCT_SIZE then ⟨.invalidParam, [], [], d⟩
  else
    let mbrB := d.readBytes 0 block_size
    let ops0 := [DiskOp.read 0 block_size]
    if ¬ hasGptProtectivePart mbrB then ⟨.notFound, [], ops0, d⟩
    else
      let v1 := validate_gpt_table d PRIMARY_PART_HEADER_LBA
      match v1.1 with
      | some primary_header =>
        let v2 := validate_gpt_table d primary_header.alternate_lba
        match v2.1 with
        | some _ =>
          gptEnumerate d primary_header max_partitions (ops0 ++ v1.2 ++ v2.2)
        | none =>
          -- restore backup from primary, then re-validate it
          let r := restore_gpt_table d primary_header
          let v3 := validate_gpt_table r.2.1 primary_header.alternate_lba
          gptEnumerate r.2.1 primary_header max_partitions
            (ops0 ++ v1.2 ++ v2.2 ++ r.2.2 ++ v3.2)
      | none =>
        let v2 := validate_gpt_table d last_block
        match v2.1 with
        | some backup_header =>
          -- restore primary from backup, then re-validate it
          let r := restore_gpt_table d backup_header
          let v3 := validate_gpt_table r.2.1 backup_header.alternate_lba
          match v3.1 with
          | some primary_header2 =>
            gptEnumerate r.2.1 primary_header2 max_partitions
              (ops0 ++ v1.2 ++ v2.2 ++ r.2.2 ++ v3.2)
          | none =>
            gptEnumerate r.2.1 backup_header max_partitions
              (ops0 ++ v1.2 ++ v2.2 ++ r.2.2 ++ v3.2)
        | none => ⟨.notFound, [], ops0 ++ v1.2 ++ v2.2, d⟩

/-! ## MBR parser (`Mbr.c`) -/

def MBR_SIGNATURE : Nat := 0xAA55
def PARTITION_TYPE_EMPTY : Nat := 0x00
def PARTITION_TYPE_EXTENDED : Nat := 0x05
def PARTITION_TYPE_EXTENDED_LBA : Nat := 0x0F
def PARTITION_TYPE_LINUX_EXTENDED : Nat := 0x85

/-- The table `get_partition_type_name`. -/
def get_partition_type_name (t : Nat) : String :=
  if t = 0x00 then "Empty"
  else if t = 0x01 then "FAT12"
  else if t = 0x04 ∨ t = 0x06 ∨ t = 0x0E then "FAT16"
  else if t = 0x05 ∨ t = 0x0F ∨ t = 0x85 then "Extended"
  else if t = 0x07 then "NTFS"
  else if t = 0x0B ∨ t = 0x0C then "FAT32"
  else if t = 0x82 then "Linux Swap"
  else if t = 0x83 then "Linux"
  else if t = 0x8E then "Linux LVM"
  else if t = 0xEE then "GPT Protective"
  else if t = 0xEF then "EFI System"
  else "Unknown"

/-- The predicate `is_extended_partition(type)`. -/
def is_extended_partition (t : Nat) : Bool :=
  t == PARTITION_TYPE_EXTENDED || t == PARTITION_TYPE_EXTENDED_LBA ||
    t == PARTITION_TYPE_LINUX_EXTENDED

/-- The check `validate_mbr(mbr)`: trailing signature plus, for every non-empty slot,
a boot indicator of `0x00`/`0x80` and a nonzero size. -/
def validate_mbr (b : List Nat) : Bool :=
  readLE b 510 2 == MBR_SIGNATURE &&
    (List.range 4).all fun i =>
      let e := parseMbrSlot b i
      e.os_indicator == PARTITION_TYPE_EMPTY ||
        ((e.boot_indicator == 0x00 || e.boot_indicator == 0x80) &&
          e.size_in_lba != 0)

/-- The check `is_protective_mbr(mbr)`. -/
def is_protective_mbr (b : List Nat) : Bool :=
  (List.range 4).any fun i =>
    let e := parseMbrSlot b i
    e.boot_indicator == 0x00 && e.os_indicator == PMBR_GPT_PARTITION &&
      e.starting_lba == 1

/-- The `mbr_partition_info_t` output record. -/
structure MbrPartInfo where
  start_lba : Nat
  end_lba : Nat
  size_sectors : Nat
  block_size : Nat
  partition_type : Nat
  bootable : Bool
  is_extended : Bool
  partition_number : Nat
  type_name : String
deriving DecidableEq, Repr

/-! ### Extended partition (EBR) chain walk

`process_extended_partition` is a `while` loop whose next address is taken
from untrusted disk data, so it has no termination measure; it is embedded
as a step function on an explicit loop state plus a fuel-bounded runner
(`none` = the loop is still running after `fuel` iterations).
-/

/-- Loop state of `process_extended_partition`: the current EBR address, the
partitions emitted so far (primaries included — the count is shared with the
caller), and the next logical partition number. -/
structure EbrState where
  current_ebr_lba : Nat
  parts : List MbrPartInfo
  next_logical : Nat
deriving DecidableEq, Repr

/-- One iteration of the EBR loop either exits (`done`) or continues with a
new state, logging the EBR read it performed. -/
inductive EbrStepResult where
  | done (s : EbrState) (st : Status)
  | cont (s : EbrState) (op : DiskOp)
deriving DecidableEq, Repr

/-- The state carried by a step result. -/
def EbrStepResult.stateOf : EbrStepResult → EbrState
  | .done s _ => s
  | .cont s _ => s

/-- The logical-partition record emitted from the first slot of the EBR at
`current_ebr_lba`: its address is relative to **that EBR**. -/
def mkLogicalPart (d : Disk) (s : EbrState) (logical : MbrSlot) : MbrPartInfo :=
  let start_lba := s.current_ebr_lba + logical.starting_lba
  { start_lba := start_lba
    size_sectors := logical.size_in_lba
    end_lba := start_lba + logical.size_in_lba - 1
    block_size := d.block_size
    partition_type := logical.os_indicator
    bootable := logical.boot_indicator == 0x80
    is_extended := false
    partition_number := s.next_logical
    type_name := get_partition_type_name logical.os_indicator }

/-- One iteration of the `while` loop of `process_extended_partition`
(reads always succeed in this model, so the read-failure exit is absent). -/
def ebrStep (d : Disk) (extended_base_lba max_partitions : Nat)
    (s : EbrState) : EbrStepResult :=
  if s.current_ebr_lba = 0 ∨ max_partitions ≤ s.parts.length then
    .done s .success
  else
    let offset := s.current_ebr_lba * d.block_size
    let b := d.readBytes offset d.block_size
    if readLE b 510 2 ≠ MBR_SIGNATURE then .done s .success
    else
      let logical := parseMbrSlot b 0
      let s1 :=
        if logical.os_indicator ≠ PARTITION_TYPE_EMPTY ∧ 0 < logical.size_in_lba
        then
          { s with
            parts := s.parts ++ [mkLogicalPart d s logical]
            next_logical := s.next_logical + 1 }
        else s
      let next := parseMbrSlot b 1
      let next_lba :=
        if next.os_indicator ≠ PARTITION_TYPE_EMPTY ∧
            is_extended_partition next.os_indicator ∧ 0 < next.size_in_lba
        then extended_base_lba + next.starting_lba
        else 0
      .cont { s1 with current_ebr_lba := next_lba } (.read offset d.block_size)

/-- Run the EBR loop for at most `fuel` iterations. -/
def ebrRun (d : Disk) (extended_base_lba max_partitions : Nat) :
    Nat → EbrState → Option (EbrState × List DiskOp)
  | 0, _ => none
  | fuel + 1, s =>
    match ebrStep d extended_base_lba max_partitions s with
    | .done s' _ => some (s', [])
    | .cont s' op =>
      (ebrRun d extended_base_lba max_partitions fuel s').map
        fun r => (r.1, op :: r.2)

/-- The walk `process_extended_partition(dev, extended_base_lba, ebr_lba, …)`:
the chain walk starts at `ebr_lba` with logical numbering starting at 5. -/
def process_extended_partition (d : Disk) (extended_base_lba ebr_lba : Nat)
    (parts : List MbrPartInfo) (max_partitions fuel : Nat) :
    Option (EbrState × List DiskOp) :=
  ebrRun d extended_base_lba max_partitions fuel
    { current_ebr_lba := ebr_lba, parts := parts, next_logical := 5 }

/-- A primary (non-extended) partition record from slot `i`. -/
def mkPrimaryPart (d : Disk) (e : MbrSlot) (i : Nat) : MbrPartInfo where
  start_lba := e.starting_lba
  size_sectors := e.size_in_lba
  end_lba := e.starting_lba + e.size_in_lba - 1
  block_size := d.block_size
  partition_type := e.os_indicator
  bootable := e.boot_indicator == 0x80
  is_extended := false
  partition_number := i + 1
  type_name := get_partition_type_name e.os_indicator

/-- The body of the primary-partition loop of `discover_mbr_partitions` for
slot `i` (the accumulated result is `none` once an extended chain failed to
terminate within its fuel). -/
def mbrPrimaryStep (d : Disk) (mbrB : List Nat) (max_partitions fuel : Nat)
    (acc : Option (List MbrPartInfo × List DiskOp)) (i : Nat) :
    Option (List MbrPartInfo × List DiskOp) :=
  match acc with
  | none => none
  | some (parts, ops) =>
    if max_partitions ≤ parts.length then some (parts, ops)
    else
      let e := parseMbrSlot mbrB i
      if e.os_indicator = PARTITION_TYPE_EMPTY ∨ e.size_in_lba = 0 then
        some (parts, ops)
      else if is_extended_partition e.os_indicator then
        match process_extended_partition d e.starting_lba e.starting_lba parts
            max_partitions fuel with
        | none => none
        | some (s', ops') => some (s'.parts, ops ++ ops')
      else some (parts ++ [mkPrimaryPart d e i], ops)

/-- The routine `discover_mbr_partitions(dev, partitions, num_partitions,
max_partitions)`; `fuel` bounds each EBR chain walk and the result is `none`
when a chain exceeds it (the C loop would still be running).  On
termination: the status, emitted partitions, and operation log. -/
def discover_mbr_partitions (d : Disk) (max_partitions fuel : Nat) :
    Option (Status × List MbrPartInfo × List DiskOp) :=
  if max_partitions = 0 then some (.invalidParam, [], [])
  else if d.block_size < MBR_STRUCT_SIZE then some (.invalidParam, [], [])
  else
    let b := d.readBytes 0 d.block_size
    let ops0 := [DiskOp.read 0 d.block_size]
    if ¬ validate_mbr b then some (.notFound, [], ops0)
    else if is_protective_mbr b then some (.notFound, [], ops0)
    else
      match (List.range 4).foldl (mbrPrimaryStep d b max_partitions fuel)
          (some ([], [])) with
      | none => none
      | some (parts, ops) =>
        if 0 < parts.length then some (.success, parts, ops0 ++ ops)
        else some (.notFound, parts, ops0 ++ ops)


/-! ## Claim-side definitions

These definitions restate, in the words of the specification's claims, the
quantities the claims talk about; the theorems below relate them to the
operational definitions above.
-/

/-- The checksum of a header buffer "recomputed with the checksum field
zeroed", over the declared `size` bytes. -/
def recomputedHeaderCrc (b : List Nat) (size : Nat) : Nat :=
  calculate_crc32 ((overwrite b 16 (leBytes 4 0)).take size)

/-- A 92-byte header buffer whose stored CRC field (bytes 16..19) holds the
value 5; used to exercise `check_header_crc`. -/
def c8bytes : List Nat :=
  List.replicate 16 0 ++ [5, 0, 0, 0] ++ List.replicate 72 0


/-- The data carried by a logged operation (a write's bytes). -/
def DiskOp.dataOf : DiskOp → List Nat
  | .write _ data => data
  | .read _ _ => []

/-- The partition-entry location `restore_gpt_table` computes for the new
copy: immediately after the usable range when the **source** is the primary
(so the new copy goes into the backup slot), and block 2 when the source is
the backup (so the new copy goes into the primary slot). -/
def restoredEntryLba (h : GptHeader) : Nat :=
  if h.my_lba = PRIMARY_PART_HEADER_LBA then h.last_usable_lba + 1
  else PRIMARY_PART_HEADER_LBA + 1

/-- The source header with the self and alternate block addresses swapped,
the recomputed partition-entry location, and the checksum field zeroed. -/
def restoredHeaderBase (h : GptHeader) : GptHeader :=
  { h with
    my_lba := h.alternate_lba
    alternate_lba := h.my_lba
    partition_entry_lba := restoredEntryLba h
    header_crc32 := 0 }

/-- The new header `restore_gpt_table` builds, described as claim C1 words
it: a copy of the source with the self and alternate block addresses
swapped, the new partition-entry location, and the header checksum
recomputed with the checksum field zeroed. -/
def restoredHeader (bs : Nat) (h : GptHeader) : GptHeader :=
  { restoredHeaderBase h with
    header_crc32 :=
      calculate_crc32
        ((bufN bs (serializeGptHeader (restoredHeaderBase h))).take h.header_size) }

/-- The partition-entry location claim C1 *as stated* prescribes: block 2
when restoring **into** the backup slot (i.e. when the source is the
primary), and immediately after the usable range when restoring into the
primary slot. -/
def claimRestoredEntryLba (h : GptHeader) : Nat :=
  if h.my_lba = PRIMARY_PART_HEADER_LBA then PRIMARY_PART_HEADER_LBA + 1
  else h.last_usable_lba + 1

/-- An all-zero 512-byte-block device. -/
def zeroDisk : Disk := { block_size := 512, total_sectors := 16, content := fun _ => 0 }

/-- A validated-looking primary GPT header (source of a restore): self
address 1, alternate 7, usable range [3,5], entries at block 2. -/
def c1header : GptHeader where
  signature := GPT_HEADER_SIGNATURE
  revision := 0x10000
  header_size := 92
  header_crc32 := 0xDEAD
  reserved := 0
  my_lba := 1
  alternate_lba := 7
  first_usable_lba := 3
  last_usable_lba := 5
  disk_guid := List.replicate 16 0x11
  partition_entry_lba := 2
  num_partition_entries := 0
  partition_entry_size := 128
  partition_array_crc32 := 0

/-! ## The basic driver (`partition_aarch64.c`)

The repository's first partition driver uses a block-count read interface
(`read_blocks(dev, lba, count, buffer)`) and performs no parameter
validation at all.  Its file-scope CRC table is written with only the first
four entries (the source reads `// ... (full table omitted for brevity -
include full 256 entries)`), so as C the remaining const-array entries are
zero-initialized; no claim depends on those values.
-/

def SECTOR_SIZE : Nat := 512

/-- The basic driver's `crc32_table`: four written entries, zero-filled. -/
def basic_crc32_table : List Nat :=
  [0x00000000, 0x77073096, 0xEE0E612C, 0x990951BA] ++ List.replicate 252 0

/-- The basic driver's `calculate_crc32`. -/
def basic_calculate_crc32 (data : List Nat) : Nat :=
  (data.foldl
    (fun crc b => (basic_crc32_table.getD ((crc ^^^ b) % 256) 0) ^^^ (crc >>> 8))
    0xFFFFFFFF) ^^^ 0xFFFFFFFF

/-- The `partition_type_t` enum of the basic driver. -/
inductive BasicPartType where
  | unknown
  | gpt
  | mbr
deriving DecidableEq, Repr

/-- The `partition_info_t` record of the basic driver (fields a code path
does not assign are modelled as zero/empty). -/
structure BasicPartInfo where
  part_type : BasicPartType
  start_lba : Nat
  end_lba : Nat
  size_sectors : Nat
  block_size : Nat
  type_guid : List Nat
  unique_guid : List Nat
  name : String
  bootable : Bool
  mbr_type : Nat
deriving DecidableEq, Repr

/-- Bytes below 128 rendered as an ASCII string (the driver's
`char name[128]` buffers). -/
def asciiString (l : List Nat) : String := String.mk (l.map Char.ofNat)

/-- Model of `read_blocks(dev, lba, count, buffer)`: `count` whole blocks
starting at block address `lba`. -/
def Disk.readBlocks (d : Disk) (lba count : Nat) : List Nat :=
  d.readBytes (lba * d.block_size) (count * d.block_size)

/-- The per-entry emission loop of the basic driver's
`detect_gpt_partitions`: skip entries whose 16 type-GUID bytes are zero;
the size is `last_lba - first_lba + 1` in `u64` arithmetic; the bootable
flag is attribute bit 2. -/
def basicGptEmit (d : Disk) (eb : List Nat) (num esize max_partitions : Nat) :
    List BasicPartInfo :=
  (List.range num).foldl
    (fun acc i =>
      if max_partitions ≤ acc.length then acc
      else
        let e := parseGptEntry (eb.drop (i * esize))
        if isUnusedGuid e.partition_type_guid then acc
        else acc ++ [{
          part_type := .gpt
          start_lba := e.starting_lba
          end_lba := e.ending_lba
          size_sectors :=
            ((e.ending_lba + 2 ^ 64 - e.starting_lba) % 2 ^ 64 + 1) % 2 ^ 64
          block_size := d.block_size
          type_guid := e.partition_type_guid
          unique_guid := e.unique_guid
          name := asciiString (utf16_to_ascii e.partition_name)
          bootable := e.attributes.testBit 2
          mbr_type := 0 }])
    []

/-- The routine `detect_gpt_partitions(device, partitions, num_partitions,
max_partitions)` of the basic driver: reads block 1 unconditionally,
checks the signature and the header CRC (with its own zero-filled table),
then reads `(entries_size + 511) / 512` blocks of entries and emits the
non-empty ones.  `entries_size` is a `u32` product. -/
def detect_gpt_partitions (d : Disk) (max_partitions : Nat) :
    Status × List BasicPartInfo × List DiskOp :=
  let buf := d.readBlocks 1 1
  let ops0 := [DiskOp.read (1 * d.block_size) (1 * d.block_size)]
  if readLE buf 0 8 ≠ GPT_HEADER_SIGNATURE then (.notFound, [], ops0)
  else
    let orig_crc := readLE buf 16 4
    let zeroed := overwrite buf 16 (leBytes 4 0)
    let calc_crc := basic_calculate_crc32 (zeroed.take (readLE buf 12 4))
    if orig_crc ≠ calc_crc then (.error, [], ops0)
    else
      let num := readLE buf 80 4
      let esize := readLE buf 84 4
      let entries_size := (num * esize) % 2 ^ 32
      let sectors_needed := (entries_size + SECTOR_SIZE - 1) / SECTOR_SIZE
      let entry_lba := readLE buf 72 8
      let eb := d.readBlocks entry_lba sectors_needed
      (.success, basicGptEmit d eb num esize max_partitions,
       ops0 ++ [DiskOp.read (entry_lba * d.block_size)
         (sectors_needed * d.block_size)])

/-- The name table of the basic driver's `detect_mbr_partitions`. -/
def basicMbrName (t : Nat) : String :=
  if t = 0x0C ∨ t = 0x0B then "FAT32"
  else if t = 0x83 then "Linux"
  else if t = 0xEE then "GPT_Protective"
  else "Unknown"

/-- The per-slot emission loop of the basic driver's
`detect_mbr_partitions`: skip empty slots; the end address is
`first_lba + num_sectors - 1` in `u32` arithmetic; the bootable flag is
status bit 7. -/
def basicMbrEmit (d : Disk) (buf : List Nat) (max_partitions : Nat) :
    List BasicPartInfo :=
  (List.range 4).foldl
    (fun acc i =>
      if max_partitions ≤ acc.length then acc
      else
        let e := parseMbrSlot buf i
        if e.os_indicator = 0 ∨ e.size_in_lba = 0 then acc
        else acc ++ [{
          part_type := .mbr
          start_lba := e.starting_lba
          end_lba := (e.starting_lba + e.size_in_lba - 1) % 2 ^ 32
          size_sectors := e.size_in_lba
          block_size := d.block_size
          type_guid := List.replicate 16 0
          unique_guid := List.replicate 16 0
          name := basicMbrName e.os_indicator
          bootable := e.boot_indicator.testBit 7
          mbr_type := e.os_indicator }])
    []

/-- The routine `detect_mbr_partitions(device, partitions, num_partitions,
max_partitions)` of the basic driver: reads block 0 unconditionally, checks
only the trailing signature, and reports success even with zero emitted
partitions. -/
def detect_mbr_partitions (d : Disk) (max_partitions : Nat) :
    Status × List BasicPartInfo × List DiskOp :=
  let buf := d.readBlocks 0 1
  let ops0 := [DiskOp.read (0 * d.block_size) (1 * d.block_size)]
  if readLE buf 510 2 ≠ MBR_SIGNATURE then (.notFound, [], ops0)
  else (.success, basicMbrEmit d buf max_partitions, ops0)

/-- The orchestrator `discover_partitions(device, partitions,
num_partitions, max_partitions)` of the basic driver: GPT first, MBR as the
fallback, not-found when both fail — with no parameter validation of any
kind before the first read. -/
def discover_partitions (d : Disk) (max_partitions : Nat) :
    Status × List BasicPartInfo × List DiskOp :=
  let g := detect_gpt_partitions d max_partitions
  if g.1 = Status.success then g
  else
    let m := detect_mbr_partitions d max_partitions
    if m.1 = Status.success then (m.1, m.2.1, g.2.2 ++ m.2.2)
    else (.notFound, [], g.2.2 ++ m.2.2)


/-! ## Concrete devices used by witnesses and counterexamples -/

/-- Byte content assembled from `(offset, bytes)` patches over a zero disk. -/
def patchContent (patches : List (Nat × List Nat)) : Nat → Nat :=
  fun a => patches.foldr
    (fun p acc => if p.1 ≤ a ∧ a < p.1 + p.2.length then p.2.getD (a - p.1) 0 else acc) 0

/-- The 16 bytes of one MBR partition slot. -/
def slotBytes (boot ptype start size : Nat) : List Nat :=
  [boot, 0, 0, 0, ptype, 0, 0, 0] ++ leBytes 4 start ++ leBytes 4 size

/-- A 512-byte MBR/EBR block with the given slots and a valid trailing
signature. -/
def mbrBlock (slots : List (List Nat)) : List Nat :=
  List.replicate 446 0 ++
    (slots ++ List.replicate (4 - slots.length) (List.replicate 16 0)).flatten ++
    [0x55, 0xAA]

/-- Store a header's correct self-checksum (over its declared size, within a
512-byte block) into its checksum field. -/
def finalizeHeaderCrc (h : GptHeader) : GptHeader :=
  let bytes := (bufN 512 (serializeGptHeader { h with header_crc32 := 0 })).take h.header_size
  { h with header_crc32 := calculate_crc32 bytes }

def protectiveMbrBlock : List Nat := mbrBlock [slotBytes 0 0xEE 1 100]

/-- Primary header of the fully-valid GPT device `D9`. -/
def d9primary : GptHeader := finalizeHeaderCrc
  { signature := GPT_HEADER_SIGNATURE, revision := 0x10000, header_size := 92,
    header_crc32 := 0, reserved := 0, my_lba := 1, alternate_lba := 7,
    first_usable_lba := 3, last_usable_lba := 5,
    disk_guid := List.replicate 16 0x11,
    partition_entry_lba := 2, num_partition_entries := 0,
    partition_entry_size := 128, partition_array_crc32 := calculate_crc32 [] }

/-- Backup header of `D9`. -/
def d9backup : GptHeader := finalizeHeaderCrc
  { d9primary with my_lba := 7, alternate_lba := 1, partition_entry_lba := 6, header_crc32 := 0 }

/-- A device carrying a fully-valid GPT (protective MBR, valid primary at
block 1, valid backup at the primary's alternate address 7). -/
def D9 : Disk :=
  { block_size := 512, total_sectors := 8,
    content := patchContent
      [(0, protectiveMbrBlock),
       (512, bufN 512 (serializeGptHeader d9primary)),
       (7 * 512, bufN 512 (serializeGptHeader d9backup))] }

/-- Primary header of `D3`: valid, but its single entry is unused. -/
def d3primary : GptHeader := finalizeHeaderCrc
  { signature := GPT_HEADER_SIGNATURE, revision := 0x10000, header_size := 92,
    header_crc32 := 0, reserved := 0, my_lba := 1, alternate_lba := 7,
    first_usable_lba := 3, last_usable_lba := 5,
    disk_guid := List.replicate 16 0x22,
    partition_entry_lba := 2, num_partition_entries := 1,
    partition_entry_size := 128,
    partition_array_crc32 := calculate_crc32 (List.replicate 128 0) }

def d3backup : GptHeader := finalizeHeaderCrc
  { d3primary with my_lba := 7, alternate_lba := 1, partition_entry_lba := 6, header_crc32 := 0 }

/-- A device with a fully-valid GPT whose only entry slot is unused, so the
per-entry filtering leaves zero usable partitions. -/
def D3 : Disk :=
  { block_size := 512, total_sectors := 8,
    content := patchContent
      [(0, protectiveMbrBlock),
       (512, bufN 512 (serializeGptHeader d3primary)),
       (7 * 512, bufN 512 (serializeGptHeader d3backup))] }

/-- An MBR device: slot 0 is an extended partition based at block 2 whose
EBR chain yields logicals at blocks 3 and 5; slot 1 is a primary Linux
partition. -/
def Dm : Disk :=
  { block_size := 512, total_sectors := 64,
    content := patchContent
      [(0, mbrBlock [slotBytes 0 0x05 2 10, slotBytes 0x80 0x83 20 5]),
       (2 * 512, mbrBlock [slotBytes 0 0x83 1 1, slotBytes 0 0x05 2 1]),
       (4 * 512, mbrBlock [slotBytes 0 0x83 1 1])] }

/-- A device carrying a protective MBR (slot of type 0xEE at starting
address 1, boot flag 0). -/
def Dp : Disk :=
  { block_size := 512, total_sectors := 64,
    content := patchContent [(0, mbrBlock [slotBytes 0 0xEE 1 100])] }

/-- A device whose extended partition's EBR at block 2 has an empty first
slot and a second slot that links back to the same EBR (start 0 relative to
the extended base 2): the EBR chain walk never advances. -/
def Dcyc : Disk :=
  { block_size := 512, total_sectors := 64,
    content := patchContent
      [(0, mbrBlock [slotBytes 0 0x05 2 10]),
       (2 * 512, mbrBlock [List.replicate 16 0, slotBytes 0 0x05 0 1])] }

/-- A device with zero total blocks (and an adequate block size). -/
def Dc7 : Disk := { block_size := 512, total_sectors := 0, content := fun _ => 0 }

/-- A device whose block size (100) is below the 512-byte structure size. -/
def DsmallBs : Disk := { block_size := 100, total_sectors := 4, content := fun _ => 0 }

/-- A header block whose declared header size is zero but whose stored
checksum (0) matches the zero-length recomputation, with every other
validation condition satisfied. -/
def c2header : GptHeader where
  signature := GPT_HEADER_SIGNATURE
  revision := 0x10000
  header_size := 0
  header_crc32 := 0
  reserved := 0
  my_lba := 1
  alternate_lba := 7
  first_usable_lba := 3
  last_usable_lba := 5
  disk_guid := List.replicate 16 0x33
  partition_entry_lba := 3
  num_partition_entries := 0
  partition_entry_size := 128
  partition_array_crc32 := 0

def Dc2 : Disk :=
  { block_size := 512, total_sectors := 8,
    content := patchContent [(512, bufN 512 (serializeGptHeader c2header))] }

/-! ## Claim-side definitions for C2 (single-copy validation) -/

/-- The block that single-copy validation at `lba` reads. -/
def gptHeaderBlock (d : Disk) (lba : Nat) : List Nat :=
  d.readBytes (lba * d.block_size) d.block_size

/-- The six conditions claim C2 enumerates, stated on the raw block read at
`lba`: signature, header checksum (recomputed with the checksum field
zeroed, over the declared header size), self-reported address, per-entry
size at least the in-memory entry structure size, no overflow of
`entry_count * entry_size`, and the entry-array checksum over the array
read from the declared location (whose byte length the code computes in
32-bit arithmetic). -/
def gptClaimConditions (d : Disk) (lba : Nat) : Prop :=
  let b := gptHeaderBlock d lba
  readLE b 0 8 = GPT_HEADER_SIGNATURE ∧
  readLE b 16 4 = recomputedHeaderCrc b (readLE b 12 4) ∧
  readLE b 24 8 = lba ∧
  GPT_ENTRY_STRUCT_SIZE ≤ readLE b 84 4 ∧
  readLE b 80 4 * readLE b 84 4 < 2 ^ 64 ∧
  readLE b 88 4 = calculate_crc32
    (d.readBytes (readLE b 72 8 * d.block_size)
      ((readLE b 80 4 * readLE b 84 4) % 2 ^ 32))

/-- The additional condition the code enforces that claim C2 omits: the
declared header size is nonzero and no larger than the block. -/
def gptHeaderSizeInBounds (d : Disk) (lba : Nat) : Prop :=
  let b := gptHeaderBlock d lba
  0 < readLE b 12 4 ∧ readLE b 12 4 ≤ d.block_size

/-! ## Claim-side definitions for C4 (overlap flagging) -/

/-- Claim C4's boundary-inclusive overlap condition on a pair of entries:
`a.end ≥ b.start ∧ a.start ≤ b.end`. -/
def pairOverlap (a b : GptEntry) : Prop :=
  b.starting_lba ≤ a.ending_lba ∧ a.starting_lba ≤ b.ending_lba

instance (a b : GptEntry) : Decidable (pairOverlap a b) := by
  unfold pairOverlap; infer_instance

/-- An entry with the given inclusive range, a non-zero type identifier and
clear attributes. -/
def mkSimpleEntry (s e : Nat) : GptEntry where
  partition_type_guid := 1 :: List.replicate 15 0
  unique_guid := List.replicate 16 2
  starting_lba := s
  ending_lba := e
  attributes := 0
  partition_name := List.replicate 72 0

/-- A header whose usable range is [1,100] with `n` declared entries (the
only fields `check_gpt_entries` reads). -/
def c4header (n : Nat) : GptHeader :=
  { (default : GptHeader) with
    first_usable_lba := 1, last_usable_lba := 100, num_partition_entries := n }

/-- The spec's own boundary example: entries `[10,20]` and `[20,30]`. -/
def c4entriesTouching : List GptEntry := [mkSimpleEntry 10 20, mkSimpleEntry 20 30]

/-- The spec's negative example: entries `[10,19]` and `[20,30]`. -/
def c4entriesApart : List GptEntry := [mkSimpleEntry 10 19, mkSimpleEntry 20 30]

/-- Four pairwise-distinct entries: 0 overlaps 2, 1 overlaps 3, but 0 and 1
are disjoint. -/
def c4entriesFour : List GptEntry :=
  [mkSimpleEntry 10 20, mkSimpleEntry 30 40, mkSimpleEntry 15 25, mkSimpleEntry 35 45]


/-! # Helper lemmas -/

@[simp] theorem leBytes_length (w v : Nat) : (leBytes w v).length = w := by
  induction w generalizing v with
  | zero => rfl
  | succ w ih => simp [leBytes, ih]

@[simp] theorem overwrite_nil (o : Nat) (d : List Nat) : overwrite [] o d = [] := by
  cases d <;> rfl

@[simp] theorem overwrite_nil_data (l : List Nat) (o : Nat) : overwrite l o [] = l := by
  cases l <;> cases o <;> rfl

theorem overwrite_length (l : List Nat) (o : Nat) (d : List Nat) :
    (overwrite l o d).length = l.length := by
  induction l generalizing o d with
  | nil => simp
  | cons x xs ih =>
    cases d with
    | nil => simp
    | cons v vs =>
      cases o with
      | zero => simpa [overwrite] using ih 0 vs
      | succ o => simpa [overwrite] using ih o (v :: vs)

theorem overwrite_zero (l d : List Nat) :
    overwrite l 0 d = d.take l.length ++ l.drop d.length := by
  induction l generalizing d with
  | nil => simp
  | cons x xs ih =>
    cases d with
    | nil => simp
    | cons v vs => simp [overwrite, ih]

/-- Overwriting past a length-`o` prefix leaves the prefix untouched. -/
theorem overwrite_append (l1 l2 d : List Nat) :
    overwrite (l1 ++ l2) l1.length d = l1 ++ overwrite l2 0 d := by
  induction l1 with
  | nil => simp
  | cons x xs ih =>
    cases d with
    | nil => simp
    | cons v vs => simp [overwrite, ih]

theorem overwrite_of_length_le (l : List Nat) (o : Nat) (d : List Nat)
    (h : l.length ≤ o) : overwrite l o d = l := by
  induction l generalizing o d with
  | nil => simp
  | cons x xs ih =>
    cases d with
    | nil => simp
    | cons v vs =>
      cases o with
      | zero => simp at h
      | succ o =>
        simp only [overwrite]
        rw [ih o (v :: vs) (by simpa using h)]

/-- Bytes at or past `o + |d|` are unchanged by the overwrite. -/
theorem drop_overwrite (l : List Nat) (o : Nat) (d : List Nat) (k : Nat)
    (h : o + d.length ≤ k) : (overwrite l o d).drop k = l.drop k := by
  induction l generalizing o d k with
  | nil => simp
  | cons x xs ih =>
    cases d with
    | nil => simp
    | cons v vs =>
      cases o with
      | zero =>
        cases k with
        | zero => simp at h
        | succ k => simpa [overwrite] using ih 0 vs k (by simp at h ⊢; omega)
      | succ o =>
        cases k with
        | zero => omega
        | succ k => simpa [overwrite] using ih o (v :: vs) k (by simp at h ⊢; omega)

/-- Bytes strictly before `o` are unchanged by the overwrite. -/
theorem take_overwrite (l : List Nat) (o : Nat) (d : List Nat) (k : Nat)
    (h : k ≤ o) : (overwrite l o d).take k = l.take k := by
  induction l generalizing o d k with
  | nil => simp
  | cons x xs ih =>
    cases d with
    | nil => simp
    | cons v vs =>
      cases o with
      | zero =>
        cases k with
        | zero => simp
        | succ _ => omega
      | succ o =>
        cases k with
        | zero => simp
        | succ k => simpa [overwrite] using ih o (v :: vs) k (by omega)

/-- A field read lying entirely past the overwritten region is unchanged. -/
theorem readLE_overwrite_of_le (l : List Nat) (o : Nat) (d : List Nat)
    (off w : Nat) (h : o + d.length ≤ off) :
    readLE (overwrite l o d) off w = readLE l off w := by
  unfold readLE
  rw [drop_overwrite l o d off h]

/-- A field read ending before the overwritten region is unchanged. -/
theorem readLE_overwrite_of_ge (l : List Nat) (o : Nat) (d : List Nat)
    (off w : Nat) (h : off + w ≤ o) :
    readLE (overwrite l o d) off w = readLE l off w := by
  unfold readLE
  have h1 : ((overwrite l o d).drop off).take w
      = ((overwrite l o d).take (off + w)).drop off := by
    rw [List.drop_take, Nat.add_sub_cancel_left]
  have h2 : (l.drop off).take w = (l.take (off + w)).drop off := by
    rw [List.drop_take, Nat.add_sub_cancel_left]
  rw [h1, h2, take_overwrite l o d (off + w) h]

@[simp] theorem readBytes_length (d : Disk) (off n : Nat) :
    (d.readBytes off n).length = n := by
  simp [Disk.readBytes]

theorem readBytes_lt_256 (d : Disk) (off n : Nat) :
    ∀ b ∈ d.readBytes off n, b < 256 := by
  intro b hb
  simp only [Disk.readBytes, List.mem_map] at hb
  obtain ⟨i, _, rfl⟩ := hb
  exact Nat.mod_lt _ (by omega)


/-- Overwriting the same region twice with equal-length data keeps only the
second write. -/
theorem overwrite_overwrite (l : List Nat) (o : Nat) (d1 d2 : List Nat)
    (h : d1.length = d2.length) :
    overwrite (overwrite l o d1) o d2 = overwrite l o d2 := by
  induction l generalizing o d1 d2 with
  | nil => simp
  | cons x xs ih =>
    cases d1 with
    | nil => cases d2 with
      | nil => simp
      | cons v vs => simp at h
    | cons u us =>
      cases d2 with
      | nil => simp at h
      | cons v vs =>
        cases o with
        | zero => simp only [overwrite]; rw [ih 0 us vs (by simpa using h)]
        | succ o => simp only [overwrite]; rw [ih o (u :: us) (v :: vs) h]

theorem getD_overwrite_lt (l : List Nat) (o : Nat) (d : List Nat) (k : Nat)
    (y : Nat) (h : k < o) : (overwrite l o d).getD k y = l.getD k y := by
  induction l generalizing o d k with
  | nil => simp
  | cons x xs ih =>
    cases d with
    | nil => simp
    | cons v vs =>
      cases o with
      | zero => omega
      | succ o =>
        cases k with
        | zero => simp [overwrite]
        | succ k => simpa [overwrite] using ih o (v :: vs) k (by omega)

theorem getD_overwrite_ge (l : List Nat) (o : Nat) (d : List Nat) (k : Nat)
    (y : Nat) (h : o + d.length ≤ k) :
    (overwrite l o d).getD k y = l.getD k y := by
  induction l generalizing o d k with
  | nil => simp
  | cons x xs ih =>
    cases d with
    | nil => simp
    | cons v vs =>
      cases o with
      | zero =>
        cases k with
        | zero => simp at h
        | succ k => simpa [overwrite] using ih 0 vs k (by simp at h ⊢; omega)
      | succ o =>
        cases k with
        | zero => omega
        | succ k =>
          simpa [overwrite] using ih o (v :: vs) k (by simp at h ⊢; omega)

/-! # Claim C8 -/

/-- Claim C8 (amended): provided the early size guards of
`check_header_crc` pass — the declared size is nonzero and, when the maximum
is nonzero, does not exceed it — the routine returns the header buffer with
the stored checksum field (bytes 16..19) replaced by the checksum recomputed
over the header with the checksum field zeroed, whether or not the
comparison with the original value succeeded; and only those four bytes of
the buffer are modified. -/
theorem check_header_crc_effect (max_size size : Nat) (b : List Nat)
    (h1 : size ≠ 0) (h2 : max_size ≠ 0 → size ≤ max_size) :
    (check_header_crc max_size size b).2
      = overwrite b 16 (leBytes 4 (recomputedHeaderCrc b size)) ∧
    ∀ k y, k < 16 ∨ 20 ≤ k →
      (check_header_crc max_size size b).2.getD k y = b.getD k y := by
  have hng : ¬ (max_size ≠ 0 ∧ max_size < size) := by
    rintro ⟨hmz, hlt⟩; exact absurd (h2 hmz) (by omega)
  constructor
  · simp only [check_header_crc, if_neg h1, if_neg hng, recomputedHeaderCrc]
    exact overwrite_overwrite b 16 (leBytes 4 0) (leBytes 4 _) (by simp)
  · intro k y hk
    simp only [check_header_crc, if_neg h1, if_neg hng]
    rcases hk with hk | hk
    · rw [getD_overwrite_lt _ _ _ _ _ hk, getD_overwrite_lt _ _ _ _ _ hk]
    · rw [getD_overwrite_ge _ _ _ _ _ (by simp; omega),
        getD_overwrite_ge _ _ _ _ _ (by simp; omega)]

set_option maxRecDepth 40000 in
/-- Witness for C8: a concrete run of `check_header_crc` on `c8bytes` with
size 92 leaves the buffer with the recomputed checksum stored in the field. -/
theorem check_header_crc_effect_witness :
    (check_header_crc 512 92 c8bytes).2
      = overwrite c8bytes 16 (leBytes 4 (recomputedHeaderCrc c8bytes 92)) :=
  (check_header_crc_effect 512 92 c8bytes (by decide) (by decide)).1

set_option maxRecDepth 40000 in
/-- Counterexample for C8 as stated: when the declared size is zero the
routine returns early, so the stored checksum field still holds the original
value 5 and not the recomputed checksum (which is 0 over an empty range) —
the claim's "regardless of whether the check succeeded or failed" fails on
the guard-rejected paths. -/
theorem check_header_crc_guard_counterexample :
    (check_header_crc 512 0 c8bytes).2 = c8bytes ∧
    readLE (check_header_crc 512 0 c8bytes).2 16 4 = 5 ∧
    recomputedHeaderCrc c8bytes 0 = 0 ∧
    readLE c8bytes 16 4 ≠ recomputedHeaderCrc c8bytes 0 := by decide

theorem overwrite_append_add (l1 l2 d : List Nat) (k : Nat) :
    overwrite (l1 ++ l2) (l1.length + k) d = l1 ++ overwrite l2 k d := by
  induction l1 with
  | nil => simp
  | cons x xs ih =>
    cases d with
    | nil => simp
    | cons v vs => simp [overwrite, Nat.succ_add, ih]

theorem overwrite_leBytes_skip (w v : Nat) (l2 d : List Nat) (k : Nat) :
    overwrite (leBytes w v ++ l2) (w + k) d = leBytes w v ++ overwrite l2 k d := by
  have := overwrite_append_add (leBytes w v) l2 d k
  rwa [leBytes_length] at this

theorem overwrite_leBytes_head (w v : Nat) (l2 d : List Nat)
    (hd : d.length = w) :
    overwrite (leBytes w v ++ l2) 0 d = d ++ l2 := by
  rw [overwrite_zero, List.take_of_length_le (by simp [hd]),
    hd, List.drop_left' (leBytes_length w v)]

@[simp] theorem bufN_length (n : Nat) (l : List Nat) : (bufN n l).length = n := by
  simp [bufN]; omega

@[simp] theorem serializeGptHeader_length (h : GptHeader) :
    (serializeGptHeader h).length = 92 := by
  simp [serializeGptHeader]

/-- Storing a 4-byte value into bytes 16..19 of a buffer holding a
serialized GPT header updates exactly the `header_crc32` field. -/
theorem overwrite_serialized_crc (bs : Nat) (h : GptHeader) (x : Nat)
    (hbs : 92 ≤ bs) :
    overwrite (bufN bs (serializeGptHeader h)) 16 (leBytes 4 x)
      = bufN bs (serializeGptHeader { h with header_crc32 := x }) := by
  have hb : ∀ g : GptHeader, bufN bs (serializeGptHeader g)
      = serializeGptHeader g ++ List.replicate (bs - 92) 0 := by
    intro g
    rw [bufN, List.take_of_length_le (by simp; omega), serializeGptHeader_length]
  rw [hb, hb]
  show overwrite
      (leBytes 8 h.signature ++ leBytes 4 h.revision ++ leBytes 4 h.header_size ++
        leBytes 4 h.header_crc32 ++ leBytes 4 h.reserved ++ leBytes 8 h.my_lba ++
        leBytes 8 h.alternate_lba ++ leBytes 8 h.first_usable_lba ++
        leBytes 8 h.last_usable_lba ++ bufN 16 h.disk_guid ++
        leBytes 8 h.partition_entry_lba ++ leBytes 4 h.num_partition_entries ++
        leBytes 4 h.partition_entry_size ++ leBytes 4 h.partition_array_crc32 ++
        List.replicate (bs - 92) 0) 16 (leBytes 4 x) = _
  simp only [List.append_assoc]
  have h16 : (16 : Nat) = 8 + (4 + (4 + 0)) := rfl
  rw [h16, overwrite_leBytes_skip, overwrite_leBytes_skip, overwrite_leBytes_skip,
    overwrite_leBytes_head 4 h.header_crc32 _ _ (by simp)]
  simp [serializeGptHeader]

/-! # Claim C1 -/

/-- Claim C1 (amended): for every validated source header, the GPT recovery
operation first writes, at the new header's own address (the source's
alternate address), a block holding a copy of the source header with the
self and alternate addresses swapped, the partition-entry location
recomputed — immediately after the usable range when restoring into the
**backup** slot (source = primary), block 2 when restoring into the
**primary** slot (source = backup) — and the header checksum recomputed
with the checksum field zeroed; and only afterwards copies the source's
entry array to the new entry-array location. -/
theorem restore_gpt_table_spec (d : Disk) (h : GptHeader)
    (hbs : 92 ≤ d.block_size) :
    (restore_gpt_table d h).2.2 =
      [DiskOp.write (h.alternate_lba * d.block_size)
        (bufN d.block_size (serializeGptHeader (restoredHeader d.block_size h))),
       DiskOp.read (h.partition_entry_lba * d.block_size)
        ((h.num_partition_entries * h.partition_entry_size) % 2 ^ 32),
       DiskOp.write (restoredEntryLba h * d.block_size)
        ((d.writeAt (h.alternate_lba * d.block_size)
            (bufN d.block_size (serializeGptHeader (restoredHeader d.block_size h)))).readBytes
          (h.partition_entry_lba * d.block_size)
          ((h.num_partition_entries * h.partition_entry_size) % 2 ^ 32))] := by
  simp only [restore_gpt_table]
  rw [overwrite_serialized_crc _ _ _ hbs]
  rw [overwrite_serialized_crc _ _ _ hbs]
  simp only [restoredHeader, restoredHeaderBase, restoredEntryLba]

set_option maxRecDepth 100000 in
/-- Witness for C1: the restore of the concrete backup-slot header
`{ c1header with my_lba := 7, alternate_lba := 1 }` on an all-zero device
produces exactly the claimed operation sequence. -/
theorem restore_gpt_table_spec_witness :
    (restore_gpt_table zeroDisk { c1header with my_lba := 7, alternate_lba := 1 }).2.2 =
      [DiskOp.write (1 * 512)
        (bufN 512 (serializeGptHeader
          (restoredHeader 512 { c1header with my_lba := 7, alternate_lba := 1 }))),
       DiskOp.read (2 * 512) 0,
       DiskOp.write (2 * 512)
        ((zeroDisk.writeAt (1 * 512)
            (bufN 512 (serializeGptHeader
              (restoredHeader 512 { c1header with my_lba := 7, alternate_lba := 1 })))).readBytes
          (2 * 512) 0)] := by
  have h1 := restore_gpt_table_spec zeroDisk
    { c1header with my_lba := 7, alternate_lba := 1 } (by decide)
  have h2 : restoredEntryLba { c1header with my_lba := 7, alternate_lba := 1 } = 2 := by decide
  rw [h1, h2]
  rfl

set_option maxRecDepth 100000 in
/-- Counterexample for C1 as stated: restoring from the primary-slot source
`c1header` (self address 1, usable range ending at 5), the header actually
written carries partition-entry location 6 = `last_usable_lba + 1`, while
the claim's mapping prescribes block 2 for a restore into the backup slot;
the two sides of the claim's case split are swapped. -/
theorem restore_entry_location_counterexample :
    readLE (((restore_gpt_table zeroDisk c1header).2.2.headD
      (DiskOp.read 0 0)).dataOf) 72 8 = 6 ∧
    restoredEntryLba c1header = 6 ∧
    claimRestoredEntryLba c1header = 2 ∧
    restoredEntryLba c1header ≠ claimRestoredEntryLba c1header := by decide

@[simp] theorem readLE_nil (off w : Nat) : readLE [] off w = 0 := by
  simp [readLE, leVal]

theorem check_header_crc_fst_iff (ms sz : Nat) (b : List Nat) (hms : ms ≠ 0) :
    (check_header_crc ms sz b).1 = true ↔
      ((0 < sz ∧ sz ≤ ms) ∧ readLE b 16 4 = recomputedHeaderCrc b sz) := by
  unfold check_header_crc recomputedHeaderCrc
  split_ifs with g1 g2
  · simp [g1]
  · have : ms < sz := g2.2
    simp only [Bool.false_eq_true, false_iff]
    rintro ⟨⟨_, hle⟩, _⟩
    omega
  · have hle : sz ≤ ms := by
      rcases Nat.lt_or_ge ms sz with hlt | hge
      · exact absurd ⟨hms, hlt⟩ g2
      · exact hge
    simp only [beq_iff_eq]
    constructor
    · intro h; exact ⟨⟨Nat.pos_of_ne_zero g1, hle⟩, h⟩
    · rintro ⟨_, h⟩; exact h

theorem readLE_check_header_crc (ms sz : Nat) (b : List Nat) (off w : Nat)
    (hoff : 20 ≤ off) :
    readLE (check_header_crc ms sz b).2 off w = readLE b off w := by
  unfold check_header_crc
  split_ifs
  · rfl
  · rfl
  · simp only
    rw [readLE_overwrite_of_le _ _ _ _ _ (by simp; omega),
      readLE_overwrite_of_le _ _ _ _ _ (by simp; omega)]

/-! # Claim C2 -/

/-- Claim C2 (amended): single-copy GPT validation at `lba` returns a header
exactly when the six conditions of the claim hold **and additionally** the
declared header size is nonzero and at most the block size (the early
guards of `check_header_crc`, which the claim omits); the byte length of
the entry array whose checksum is compared is `entry_count * entry_size`
computed in 32-bit arithmetic, as in the source. -/
theorem validate_gpt_table_iff (d : Disk) (lba : Nat) :
    (validate_gpt_table d lba).1.isSome = true ↔
      (gptClaimConditions d lba ∧ gptHeaderSizeInBounds d lba) := by
  by_cases hbs : d.block_size = 0
  · have hb : gptHeaderBlock d lba = [] := by
      simp [gptHeaderBlock, hbs, Disk.readBytes]
    have hb2 : d.readBytes (lba * d.block_size) d.block_size = [] := by
      simp [hbs, Disk.readBytes]
    simp only [validate_gpt_table, gptClaimConditions, gptHeaderSizeInBounds, hb, hb2]
    simp [GPT_HEADER_SIGNATURE]
  · simp only [validate_gpt_table, gptClaimConditions, gptHeaderSizeInBounds,
      gptHeaderBlock]
    have hchk := check_header_crc_fst_iff d.block_size
      (readLE (d.readBytes (lba * d.block_size) d.block_size) 12 4)
      (d.readBytes (lba * d.block_size) d.block_size) hbs
    have hf24 := readLE_check_header_crc d.block_size
      (readLE (d.readBytes (lba * d.block_size) d.block_size) 12 4)
      (d.readBytes (lba * d.block_size) d.block_size) 24 8 (by omega)
    have hf72 := readLE_check_header_crc d.block_size
      (readLE (d.readBytes (lba * d.block_size) d.block_size) 12 4)
      (d.readBytes (lba * d.block_size) d.block_size) 72 8 (by omega)
    have hf80 := readLE_check_header_crc d.block_size
      (readLE (d.readBytes (lba * d.block_size) d.block_size) 12 4)
      (d.readBytes (lba * d.block_size) d.block_size) 80 4 (by omega)
    have hf84 := readLE_check_header_crc d.block_size
      (readLE (d.readBytes (lba * d.block_size) d.block_size) 12 4)
      (d.readBytes (lba * d.block_size) d.block_size) 84 4 (by omega)
    have hf88 := readLE_check_header_crc d.block_size
      (readLE (d.readBytes (lba * d.block_size) d.block_size) 12 4)
      (d.readBytes (lba * d.block_size) d.block_size) 88 4 (by omega)
    split_ifs with c1 c2 c3 c4 c5 c6
    · -- every check passed
      simp only [Option.isSome_some, true_iff]
      have hchk2 := hchk.mp c2
      refine ⟨⟨c1, hchk2.2, ?_, ?_, ?_, ?_⟩, hchk2.1⟩
      · simpa [parseGptHeader, hf24] using c3
      · simpa [parseGptHeader, hf84] using c4
      · have hc4 : (128 : Nat)
            ≤ readLE (d.readBytes (lba * d.block_size) d.block_size) 84 4 := by
          simpa [parseGptHeader, hf84, GPT_ENTRY_STRUCT_SIZE] using c4
        have hc5 : readLE (d.readBytes (lba * d.block_size) d.block_size) 80 4
            ≤ 0xFFFFFFFFFFFFFFFF
              / readLE (d.readBytes (lba * d.block_size) d.block_size) 84 4 := by
          simpa [parseGptHeader, hf80, hf84] using c5
        have hmul := (Nat.le_div_iff_mul_le (by omega)).mp hc5
        omega
      · simpa [validate_gpt_entry_array_crc, parseGptHeader, hf72, hf80, hf84,
          hf88, beq_iff_eq] using c6
    · -- entry-array CRC mismatch
      simp only [Option.isSome_none, Bool.false_eq_true, false_iff]
      rintro ⟨⟨_, _, _, _, _, harr⟩, _⟩
      exact c6 (by simpa [validate_gpt_entry_array_crc, parseGptHeader, hf72,
        hf80, hf84, hf88, beq_iff_eq] using harr)
    · -- entry-count overflow
      simp only [Option.isSome_none, Bool.false_eq_true, false_iff]
      rintro ⟨⟨_, _, _, hesz, hovf, _⟩, _⟩
      have hesz2 : (128 : Nat)
          ≤ readLE (d.readBytes (lba * d.block_size) d.block_size) 84 4 := by
        simpa [GPT_ENTRY_STRUCT_SIZE] using hesz
      refine c5 ?_
      have hdiv : readLE (d.readBytes (lba * d.block_size) d.block_size) 80 4
          ≤ 0xFFFFFFFFFFFFFFFF
            / readLE (d.readBytes (lba * d.block_size) d.block_size) 84 4 :=
        (Nat.le_div_iff_mul_le (by omega)).mpr (by omega)
      simpa [parseGptHeader, hf80, hf84] using hdiv
    · -- per-entry size too small
      simp only [Option.isSome_none, Bool.false_eq_true, false_iff]
      rintro ⟨⟨_, _, _, hesz, _⟩, _⟩
      exact c4 (by simpa [parseGptHeader, hf84] using hesz)
    · -- self-reported address mismatch
      simp only [Option.isSome_none, Bool.false_eq_true, false_iff]
      rintro ⟨⟨_, _, hlba, _⟩, _⟩
      exact c3 (by simpa [parseGptHeader, hf24] using hlba)
    · -- header-checksum check failed
      simp only [Option.isSome_none, Bool.false_eq_true, false_iff]
      rintro ⟨⟨_, hcrc, _⟩, hsz⟩
      exact c2 (hchk.mpr ⟨hsz, hcrc⟩)
    · -- signature mismatch
      simp only [Option.isSome_none, Bool.false_eq_true, false_iff]
      rintro ⟨⟨hsig, _⟩, _⟩
      exact c1 hsig

set_option maxRecDepth 100000 in
/-- Counterexample for C2 as stated: on the device `Dc2` whose header block
at address 1 declares a header size of zero (with a stored checksum of 0,
matching the zero-length recomputation), all six conditions the claim lists
hold, yet validation rejects the header via the zero-size guard of
`check_header_crc`. -/
theorem validate_gpt_conditions_counterexample :
    gptClaimConditions Dc2 1 ∧ (validate_gpt_table Dc2 1).1 = none := by
  constructor
  · simp only [gptClaimConditions, gptHeaderBlock]
    decide
  · decide
/-! # Claim C4 -/

theorem pairOverlap_swap (a b : GptEntry) (h : pairOverlap a b) :
    pairOverlap b a := ⟨h.2, h.1⟩

theorem range'_split (a n j : Nat) (h1 : a ≤ j) (h2 : j < a + n) :
    List.range' a n
      = List.range' a (j - a) ++ j :: List.range' (j + 1) (a + n - j - 1) := by
  have happ := List.range'_append a (j - a) (a + n - j - 1 + 1) 1
  rw [List.range'_succ] at happ
  have ha : a + 1 * (j - a) = j := by omega
  have hn : a + n - j - 1 + 1 + (j - a) = n := by omega
  rw [ha, hn] at happ
  exact happ.symm

theorem inner_overlap_mono (s e i : Nat) (es : List GptEntry)
    (st : Nat → EntryStatusFlags) (j k : Nat) (hk : (st k).overlap = true) :
    ((overlapInnerStep s e i es st j) k).overlap = true := by
  unfold overlapInnerStep statusUpdate
  split_ifs
  · exact hk
  · by_cases hkj : k = j <;> by_cases hki : k = i <;> simp [hkj, hki, hk]
  · exact hk

theorem foldl_inner_overlap_mono (s e i : Nat) (es : List GptEntry)
    (L : List Nat) (st : Nat → EntryStatusFlags) (k : Nat)
    (hk : (st k).overlap = true) :
    ((L.foldl (overlapInnerStep s e i es) st) k).overlap = true := by
  induction L generalizing st with
  | nil => exact hk
  | cons a L ih =>
    simp only [List.foldl_cons]
    exact ih _ (inner_overlap_mono s e i es st a k hk)

theorem checkEntryStep_overlap_mono (h : GptHeader) (es : List GptEntry)
    (st : Nat → EntryStatusFlags) (i k : Nat) (hk : (st k).overlap = true) :
    ((checkEntryStep h es st i) k).overlap = true := by
  unfold checkEntryStep
  split_ifs
  · exact hk
  · simp only [statusUpdate]
    by_cases hki : k = i
    · subst hki; simp [hk]
    · simp [hki, hk]
  · dsimp only
    apply foldl_inner_overlap_mono
    simp only [statusUpdate]
    by_cases hki : k = i
    · subst hki; simp [hk]
    · simp [hki, hk]
  · dsimp only
    apply foldl_inner_overlap_mono
    exact hk

theorem foldl_outer_overlap_mono (h : GptHeader) (es : List GptEntry)
    (L : List Nat) (st : Nat → EntryStatusFlags) (k : Nat)
    (hk : (st k).overlap = true) :
    ((L.foldl (checkEntryStep h es) st) k).overlap = true := by
  induction L generalizing st with
  | nil => exact hk
  | cons a L ih =>
    simp only [List.foldl_cons]
    exact ih _ (checkEntryStep_overlap_mono h es st a k hk)

theorem inner_loop_sets_pair (s e i : Nat) (es : List GptEntry)
    (L : List Nat) (st : Nat → EntryStatusFlags) (j : Nat)
    (hmem : j ∈ L) (hne : i ≠ j)
    (huj : isUnusedGuid (es.getD j default).partition_type_guid = false)
    (hc : s ≤ (es.getD j default).ending_lba ∧
      (es.getD j default).starting_lba ≤ e) :
    ((L.foldl (overlapInnerStep s e i es) st) i).overlap = true ∧
    ((L.foldl (overlapInnerStep s e i es) st) j).overlap = true := by
  induction L generalizing st with
  | nil => cases hmem
  | cons a L ih =>
    rcases List.mem_cons.mp hmem with rfl | hmem2
    · simp only [List.foldl_cons]
      have hstep : ((overlapInnerStep s e i es st j) i).overlap = true ∧
          ((overlapInnerStep s e i es st j) j).overlap = true := by
        unfold overlapInnerStep
        rw [if_neg (by rw [huj]; simp), if_pos hc]
        constructor
        · simp [statusUpdate, hne]
        · simp [statusUpdate]
      exact ⟨foldl_inner_overlap_mono s e i es L _ i hstep.1,
        foldl_inner_overlap_mono s e i es L _ j hstep.2⟩
    · simp only [List.foldl_cons]
      exact ih _ hmem2

theorem checkEntryStep_sets_pair (h : GptHeader) (es : List GptEntry)
    (st : Nat → EntryStatusFlags) (i j : Nat) (hij : i < j)
    (hj : j < h.num_partition_entries)
    (hui : isUnusedGuid (es.getD i default).partition_type_guid = false)
    (huj : isUnusedGuid (es.getD j default).partition_type_guid = false)
    (hri : entryOutOfRange h (es.getD i default) = false)
    (hov : pairOverlap (es.getD j default) (es.getD i default)) :
    ((checkEntryStep h es st i) i).overlap = true ∧
    ((checkEntryStep h es st i) j).overlap = true := by
  unfold checkEntryStep
  rw [if_neg (by rw [hui]; simp), if_neg (by rw [hri]; simp)]
  exact inner_loop_sets_pair (es.getD i default).starting_lba
    (es.getD i default).ending_lba i es _ _ j
    (List.mem_range'.mpr ⟨j - (i + 1), by omega, by omega⟩)
    (by omega) huj hov

theorem check_gpt_entries_pair_lt (h : GptHeader) (es : List GptEntry)
    (i j : Nat) (hij : i < j) (hj : j < h.num_partition_entries)
    (hui : isUnusedGuid (es.getD i default).partition_type_guid = false)
    (huj : isUnusedGuid (es.getD j default).partition_type_guid = false)
    (hri : entryOutOfRange h (es.getD i default) = false)
    (hov : pairOverlap (es.getD j default) (es.getD i default)) :
    (check_gpt_entries h es i).overlap = true ∧
    (check_gpt_entries h es j).overlap = true := by
  unfold check_gpt_entries
  rw [List.range_eq_range',
    range'_split 0 h.num_partition_entries i (by omega) (by omega),
    List.foldl_append]
  simp only [List.foldl_cons]
  have hpair := checkEntryStep_sets_pair h es
    (List.foldl (checkEntryStep h es) (fun _ => default) (List.range' 0 (i - 0)))
    i j hij hj hui huj hri hov
  exact ⟨foldl_outer_overlap_mono h es _ _ i hpair.1,
    foldl_outer_overlap_mono h es _ _ j hpair.2⟩

/-- Claim C4 (amended): for every pair of non-empty, in-range entries at
distinct indices, if `a.end ≥ b.start ∧ a.start ≤ b.end` (boundary
inclusive) then the sanity checker flags **both** as overlapping; in
particular `[10,20]` and `[20,30]` are both flagged while `[10,19]` and
`[20,30]` are not.  (The converse of the flagging — the "only if" of the
claim — does not hold pairwise; see the counterexample.) -/
theorem overlap_flagging_spec :
    (∀ (h : GptHeader) (es : List GptEntry) (i j : Nat),
      i < h.num_partition_entries → j < h.num_partition_entries → i ≠ j →
      isUnusedGuid (es.getD i default).partition_type_guid = false →
      isUnusedGuid (es.getD j default).partition_type_guid = false →
      entryOutOfRange h (es.getD i default) = false →
      entryOutOfRange h (es.getD j default) = false →
      pairOverlap (es.getD i default) (es.getD j default) →
      (check_gpt_entries h es i).overlap = true ∧
      (check_gpt_entries h es j).overlap = true) ∧
    ((check_gpt_entries (c4header 2) c4entriesTouching 0).overlap = true ∧
     (check_gpt_entries (c4header 2) c4entriesTouching 1).overlap = true) ∧
    ((check_gpt_entries (c4header 2) c4entriesApart 0).overlap = false ∧
     (check_gpt_entries (c4header 2) c4entriesApart 1).overlap = false) := by
  refine ⟨?_, by decide, by decide⟩
  intro h es i j hi hj hne hui huj hri hrj hov
  rcases Nat.lt_or_ge i j with hij | hge
  · exact check_gpt_entries_pair_lt h es i j hij hj hui huj hri
      (pairOverlap_swap _ _ hov)
  · have hji : j < i := by omega
    have := check_gpt_entries_pair_lt h es j i hji hi huj hui hrj hov
    exact ⟨this.2, this.1⟩

/-- Witness for C4: applying the pair-flagging theorem to the boundary
example `[10,20]`/`[20,30]` flags both entries. -/
theorem overlap_flagging_spec_witness :
    (check_gpt_entries (c4header 2) c4entriesTouching 0).overlap = true ∧
    (check_gpt_entries (c4header 2) c4entriesTouching 1).overlap = true :=
  overlap_flagging_spec.1 (c4header 2) c4entriesTouching 0 1 (by decide)
    (by decide) (by decide) (by decide) (by decide) (by decide) (by decide)
    (by decide)

/-- Counterexample for C4 as stated: in the four-entry array
`c4entriesFour`, entries 0 (`[10,20]`) and 1 (`[30,40]`) are non-empty,
in-range, at distinct indices, and are **both** flagged overlapping (each
overlaps a different partner), yet the claim's condition
`a.end ≥ b.start ∧ a.start ≤ b.end` fails for the pair — so "flags both as
overlapping if and only if" is false in the only-if direction. -/
theorem overlap_pair_iff_counterexample :
    (check_gpt_entries (c4header 4) c4entriesFour 0).overlap = true ∧
    (check_gpt_entries (c4header 4) c4entriesFour 1).overlap = true ∧
    isUnusedGuid (c4entriesFour.getD 0 default).partition_type_guid = false ∧
    isUnusedGuid (c4entriesFour.getD 1 default).partition_type_guid = false ∧
    entryOutOfRange (c4header 4) (c4entriesFour.getD 0 default) = false ∧
    entryOutOfRange (c4header 4) (c4entriesFour.getD 1 default) = false ∧
    ¬ pairOverlap (c4entriesFour.getD 0 default)
        (c4entriesFour.getD 1 default) := by decide

/-! # Claim C3 -/

/-- Claim C3 (amended): the MBR path never reports success with an empty
partition list — when the per-slot processing leaves zero usable partitions
it reports not-found.  (The GPT path does **not** share this behaviour; see
the counterexample, where GPT discovery returns success with an empty
list.) -/
theorem mbr_no_empty_success (d : Disk) (max_partitions fuel : Nat)
    (st : Status) (parts : List MbrPartInfo) (ops : List DiskOp)
    (h : discover_mbr_partitions d max_partitions fuel = some (st, parts, ops))
    (hs : st = Status.success) : parts ≠ [] := by
  subst hs
  unfold discover_mbr_partitions at h
  dsimp only at h
  split_ifs at h with h1 h2 h3 h4
  · exact absurd h (by simp)
  · exact absurd h (by simp)
  · exact absurd h (by simp)
  · rcases hfold : List.foldl
        (mbrPrimaryStep d (d.readBytes 0 d.block_size) max_partitions fuel)
        (some ([], [])) (List.range 4) with _ | pr
    · rw [hfold] at h
      simp at h
    · obtain ⟨parts', ops'⟩ := pr
      rw [hfold] at h
      dsimp only at h
      by_cases hlen : 0 < parts'.length
      · rw [if_pos hlen] at h
        simp only [Option.some_inj, Prod.mk.injEq] at h
        obtain ⟨-, hp, -⟩ := h
        subst hp
        intro hnil
        rw [hnil] at hlen
        simp at hlen
      · rw [if_neg hlen] at h
        simp at h
  · exact absurd h (by simp)

/-- The partition list `discover_mbr_partitions` returns on the device
`Dm` (two logical partitions from the EBR chain, one primary). -/
def DmParts : List MbrPartInfo :=
  [{ start_lba := 3, end_lba := 3, size_sectors := 1, block_size := 512,
     partition_type := 0x83, bootable := false, is_extended := false,
     partition_number := 5, type_name := "Linux" },
   { start_lba := 5, end_lba := 5, size_sectors := 1, block_size := 512,
     partition_type := 0x83, bootable := false, is_extended := false,
     partition_number := 6, type_name := "Linux" },
   { start_lba := 20, end_lba := 24, size_sectors := 5, block_size := 512,
     partition_type := 0x83, bootable := true, is_extended := false,
     partition_number := 2, type_name := "Linux" }]

set_option maxRecDepth 1000000 in
/-- Witness for C3: on the device `Dm` the MBR path succeeds with a
non-empty partition list. -/
theorem mbr_no_empty_success_witness : DmParts ≠ [] :=
  mbr_no_empty_success Dm 8 16 Status.success DmParts
    [DiskOp.read 0 512, DiskOp.read 1024 512, DiskOp.read 2048 512]
    (by decide) rfl

set_option maxRecDepth 1000000 in
/-- Counterexample for C3 as stated: on the device `D3` the GPT path finds a
valid partition table (the primary validates) whose per-entry filtering
leaves zero usable partitions (its only entry is unused), yet discovery
reports **success with an empty list**, not not-found. -/
theorem gpt_zero_usable_success_counterexample :
    (validate_gpt_table D3 PRIMARY_PART_HEADER_LBA).1.isSome = true ∧
    (discover_gpt_partitions D3 8).status = Status.success ∧
    (discover_gpt_partitions D3 8).parts = [] ∧
    Status.success ≠ Status.notFound := by
  refine ⟨by decide, by decide, by decide, by decide⟩

/-! # Claim C6 -/

/-- Claim C6 (confirmed): for every device (with a workable block size and a
nonzero result bound) whose block-0 table contains a slot with boot flag 0,
type code 0xEE and starting address 1, the MBR parser reports not-found and
emits no partition descriptors, having issued only the single block-0
read. -/
theorem protective_mbr_not_found (d : Disk) (max_partitions fuel : Nat)
    (hmax : max_partitions ≠ 0) (hbs : MBR_STRUCT_SIZE ≤ d.block_size)
    (hprot : is_protective_mbr (d.readBytes 0 d.block_size) = true) :
    discover_mbr_partitions d max_partitions fuel
      = some (Status.notFound, [], [DiskOp.read 0 d.block_size]) := by
  unfold discover_mbr_partitions
  rw [if_neg hmax, if_neg (by omega)]
  dsimp only
  split_ifs with h1
  · rfl
  · rfl

set_option maxRecDepth 1000000 in
/-- Witness for C6: the concrete protective-MBR device `Dp`. -/
theorem protective_mbr_not_found_witness :
    discover_mbr_partitions Dp 8 16
      = some (Status.notFound, [], [DiskOp.read 0 512]) :=
  protective_mbr_not_found Dp 8 16 (by decide) (by decide) (by decide)

/-! # Claim C7 -/

/-- Claim C7 (amended): a block size smaller than the on-disk MBR structure
size makes `discover_mbr_partitions` and `discover_gpt_partitions` return
`InvalidParameter` without issuing any device operation; a zero total block
count is **not** checked by either.  The basic driver's combined
`discover_partitions` performs no parameter validation at all: on every
device — zero total blocks or an undersized block included — it
immediately issues a read of block 1 (inside `detect_gpt_partitions`)
before any check, and it never returns `InvalidParameter`. -/
theorem small_block_size_invalid_param :
    (∀ (d : Disk) (max_partitions fuel : Nat),
      d.block_size < MBR_STRUCT_SIZE →
      discover_mbr_partitions d max_partitions fuel
          = some (Status.invalidParam, [], []) ∧
      (discover_gpt_partitions d max_partitions).status = Status.invalidParam ∧
      (discover_gpt_partitions d max_partitions).ops = []) ∧
    (∀ (d : Disk) (max_partitions : Nat),
      (discover_partitions d max_partitions).1 ≠ Status.invalidParam ∧
      ∃ rest, (discover_partitions d max_partitions).2.2
          = DiskOp.read (1 * d.block_size) (1 * d.block_size) :: rest) := by
  constructor
  · intro d max_partitions fuel hbs
    refine ⟨?_, ?_, ?_⟩
    · unfold discover_mbr_partitions
      by_cases hm : max_partitions = 0
      · rw [if_pos hm]
      · rw [if_neg hm, if_pos hbs]
    · simp only [discover_gpt_partitions]
      rw [if_pos hbs]
    · simp only [discover_gpt_partitions]
      rw [if_pos hbs]
  · intro d max_partitions
    have hg : ∃ r0, (detect_gpt_partitions d max_partitions).2.2
        = DiskOp.read (1 * d.block_size) (1 * d.block_size) :: r0 := by
      unfold detect_gpt_partitions
      dsimp only
      split_ifs
      · exact ⟨_, rfl⟩
      · exact ⟨_, rfl⟩
      · exact ⟨_, rfl⟩
    obtain ⟨r0, hr0⟩ := hg
    constructor
    · unfold discover_partitions
      dsimp only
      split_ifs with hgs hms
      · rw [hgs]
        decide
      · rw [hms]
        decide
      · simp
    · unfold discover_partitions
      dsimp only
      split_ifs
      · exact ⟨r0, hr0⟩
      · exact ⟨r0 ++ (detect_mbr_partitions d max_partitions).2.2,
          by rw [hr0]; rfl⟩
      · exact ⟨r0 ++ (detect_mbr_partitions d max_partitions).2.2,
          by rw [hr0]; rfl⟩

/-- Witness for C7: the small-block device `DsmallBs` for the
`InvalidParameter` half, and the zero-total-blocks device `Dc7` for the
no-validation half. -/
theorem small_block_size_invalid_param_witness :
    discover_mbr_partitions DsmallBs 4 9
      = some (Status.invalidParam, [], []) ∧
    (discover_partitions Dc7 4).1 ≠ Status.invalidParam :=
  ⟨(small_block_size_invalid_param.1 DsmallBs 4 9 (by decide)).1,
   (small_block_size_invalid_param.2 Dc7 4).1⟩

set_option maxRecDepth 1000000 in
/-- Counterexample for C7 as stated: the device `Dc7` has zero total blocks,
yet MBR discovery issues a block-0 read and returns not-found rather than
`InvalidParameter` (no discovery function checks the total block count);
and the basic driver's `discover_partitions` issues reads and returns
not-found rather than `InvalidParameter` both on the undersized-block
device `DsmallBs` and on the zero-total-blocks device `Dc7`. -/
theorem zero_total_blocks_read_counterexample :
    Dc7.total_sectors = 0 ∧
    discover_mbr_partitions Dc7 4 9
      = some (Status.notFound, [], [DiskOp.read 0 512]) ∧
    Status.notFound ≠ Status.invalidParam ∧
    DsmallBs.block_size < MBR_STRUCT_SIZE ∧
    discover_partitions DsmallBs 4
      = (Status.notFound, [], [DiskOp.read 100 100, DiskOp.read 0 100]) ∧
    discover_partitions Dc7 4
      = (Status.notFound, [], [DiskOp.read 512 512, DiskOp.read 0 512]) := by
  refine ⟨rfl, by decide, by decide, by decide, by decide, by decide⟩

/-! # Claim C10 -/

/-- The loop state of the EBR walk on `Dcyc` after entering the chain. -/
def c10state : EbrState := { current_ebr_lba := 2, parts := [], next_logical := 5 }

set_option maxRecDepth 1000000 in
/-- Claim C10 is refuted by the code: on the device `Dcyc` — whose EBR at
block 2 has an empty first slot and a second slot linking back to itself —
one loop iteration of `process_extended_partition` returns to exactly the
same state, so the walk never finishes: for every iteration bound the
fuel-indexed runner is still running.  The C loop runs forever on this
device content. -/
theorem ebr_cycle_nontermination :
    ebrStep Dcyc 2 4 c10state = .cont c10state (DiskOp.read 1024 512) ∧
    (∀ fuel : Nat, process_extended_partition Dcyc 2 2 [] 4 fuel = none) := by
  have hstep : ebrStep Dcyc 2 4 c10state = .cont c10state (DiskOp.read 1024 512) := by
    decide
  refine ⟨hstep, ?_⟩
  have hrun : ∀ fuel : Nat, ebrRun Dcyc 2 4 fuel c10state = none := by
    intro fuel
    induction fuel with
    | zero => rfl
    | succ n ih =>
      simp only [ebrRun, hstep, ih, Option.map_none']
  intro fuel
  exact hrun fuel

/-! # Claim C9 -/

theorem gptEnumerate_ops (d : Disk) (h : GptHeader) (maxp : Nat)
    (ops : List DiskOp) :
    (gptEnumerate d h maxp ops).ops
      = ops ++ [DiskOp.read (h.partition_entry_lba * d.block_size)
          ((h.num_partition_entries * h.partition_entry_size) % 2 ^ 32)] := rfl

/-- Single-copy validation only ever reads. -/
theorem validate_gpt_table_ops_reads (d : Disk) (lba : Nat) :
    writesOf (validate_gpt_table d lba).2 = [] := by
  unfold validate_gpt_table validate_gpt_entry_array_crc
  dsimp only
  split_ifs <;> simp [writesOf, DiskOp.isWrite]

/-- Claim C9 (confirmed): when the primary header validates at block 1 and
the backup validates at the primary's declared alternate address, a GPT
discovery call issues no write at all — writes happen only on the recovery
paths taken when one copy is invalid. -/
theorem gpt_discovery_no_write_when_both_valid (d : Disk) (maxp : Nat)
    (ph : GptHeader)
    (h1 : (validate_gpt_table d PRIMARY_PART_HEADER_LBA).1 = some ph)
    (h2 : (validate_gpt_table d ph.alternate_lba).1.isSome = true) :
    writesOf (discover_gpt_partitions d maxp).ops = [] := by
  obtain ⟨bh, hbh⟩ := Option.isSome_iff_exists.mp h2
  have r1 := validate_gpt_table_ops_reads d PRIMARY_PART_HEADER_LBA
  have r2 := validate_gpt_table_ops_reads d ph.alternate_lba
  simp only [writesOf] at r1 r2 ⊢
  unfold discover_gpt_partitions
  dsimp only
  rw [h1]
  dsimp only
  rw [hbh]
  dsimp only
  split_ifs with hbs hprot
  · simp
  · rw [gptEnumerate_ops]
    simp only [List.filter_append, List.filter_cons, DiskOp.isWrite, r1, r2]
    simp
  · simp [DiskOp.isWrite]

set_option maxRecDepth 1000000 in
/-- Witness for C9: on the fully-valid GPT device `D9` discovery writes
nothing. -/
theorem gpt_discovery_no_write_witness :
    writesOf (discover_gpt_partitions D9 8).ops = [] :=
  gpt_discovery_no_write_when_both_valid D9 8 d9primary (by decide) (by decide)

/-! # Claim C5 -/

/-- Every `done` exit of the EBR loop leaves the state untouched. -/
theorem ebrStep_done_state (d : Disk) (base maxp : Nat) (s s' : EbrState)
    (st : Status) (h : ebrStep d base maxp s = .done s' st) : s' = s := by
  unfold ebrStep at h
  dsimp only at h
  split_ifs at h
  all_goals cases h
  all_goals rfl

/-- Every `cont` iteration of the EBR loop either leaves the emitted list
and numbering alone, or appends exactly one partition carrying the current
logical number and increments that number. -/
theorem ebrStep_cont_state (d : Disk) (base maxp : Nat) (s s' : EbrState)
    (op : DiskOp) (h : ebrStep d base maxp s = .cont s' op) :
    (s'.parts = s.parts ∧ s'.next_logical = s.next_logical) ∨
    (∃ p, s'.parts = s.parts ++ [p] ∧ p.partition_number = s.next_logical ∧
      s'.next_logical = s.next_logical + 1) := by
  unfold ebrStep at h
  dsimp only at h
  split_ifs at h
  all_goals cases h
  all_goals first
    | exact Or.inr ⟨_, rfl, rfl, rfl⟩
    | exact Or.inl ⟨rfl, rfl⟩

/-- On every terminating run of the EBR loop, the partitions appended to
the incoming list carry consecutive numbers starting from the incoming
logical number. -/
theorem ebrRun_numbering (d : Disk) (base maxp : Nat) :
    ∀ (fuel : Nat) (s res : EbrState) (ops : List DiskOp),
      ebrRun d base maxp fuel s = some (res, ops) →
      ∃ new, res.parts = s.parts ++ new ∧
        res.next_logical = s.next_logical + new.length ∧
        new.map (fun p => p.partition_number)
          = List.range' s.next_logical new.length := by
  intro fuel
  induction fuel with
  | zero => intro s res ops h; simp [ebrRun] at h
  | succ n ih =>
    intro s res ops h
    rw [ebrRun] at h
    rcases hstep : ebrStep d base maxp s with ⟨s1, st1⟩ | ⟨s1, op1⟩
    · rw [hstep] at h
      dsimp only at h
      simp only [Option.some_inj, Prod.mk.injEq] at h
      obtain ⟨hres, -⟩ := h
      have hs1 : s1 = s := ebrStep_done_state d base maxp s s1 st1 hstep
      subst hres
      subst hs1
      exact ⟨[], by simp, by simp, by simp⟩
    · rw [hstep] at h
      dsimp only at h
      rcases hrun : ebrRun d base maxp n s1 with _ | pr
      · rw [hrun] at h; simp at h
      · obtain ⟨res1, ops1⟩ := pr
        rw [hrun] at h
        simp only [Option.map_some', Option.some_inj, Prod.mk.injEq] at h
        obtain ⟨hres, -⟩ := h
        obtain ⟨new1, hp1, hn1, hm1⟩ := ih s1 res1 ops1 hrun
        rcases ebrStep_cont_state d base maxp s s1 op1 hstep with
          ⟨hpe, hne⟩ | ⟨p, hpe, hpn, hne⟩
        · refine ⟨new1, ?_, ?_, ?_⟩
          · rw [← hres, hp1, hpe]
          · rw [← hres, hn1, hne]
          · rw [hm1, hne]
        · refine ⟨p :: new1, ?_, ?_, ?_⟩
          · rw [← hres, hp1, hpe]
            simp
          · rw [← hres, hn1, hne]
            simp only [List.length_cons]
            omega
          · simp only [List.map_cons, hpn, hm1, hne, List.length_cons]
            rw [List.range'_succ]

/-- Claim C5 (confirmed), in six parts over the EBR chain walk:
(1) when the loop is live (nonzero EBR address, room left, valid signature)
and the first slot is non-empty with positive size, the iteration appends
exactly the logical partition built from that slot;
(2) that partition's address is the **current EBR's** address plus the
slot's stored start, and its number is the running logical number;
(3) when the second slot is a non-empty extended entry of positive size,
the next EBR address is the **extended partition's original base** plus the
slot's stored start;
(4) the walk exits once the current address is zero, exits when the block
signature check fails, and a second slot that is empty, not extended, or
zero-sized zeroes the next address (ending the chain);
(5) the logical partitions a chain walk emits are numbered consecutively
starting at 5;
(6) a primary slot `i` emits a partition numbered `i + 1`. -/
theorem ebr_chain_walk_spec :
    (∀ (d : Disk) (base maxp : Nat) (s : EbrState),
      s.current_ebr_lba ≠ 0 → s.parts.length < maxp →
      readLE (d.readBytes (s.current_ebr_lba * d.block_size) d.block_size)
          510 2 = MBR_SIGNATURE →
      (parseMbrSlot (d.readBytes (s.current_ebr_lba * d.block_size)
          d.block_size) 0).os_indicator ≠ PARTITION_TYPE_EMPTY →
      0 < (parseMbrSlot (d.readBytes (s.current_ebr_lba * d.block_size)
          d.block_size) 0).size_in_lba →
      (ebrStep d base maxp s).stateOf.parts
        = s.parts ++ [mkLogicalPart d s
            (parseMbrSlot (d.readBytes (s.current_ebr_lba * d.block_size)
              d.block_size) 0)]) ∧
    (∀ (d : Disk) (s : EbrState) (slot : MbrSlot),
      (mkLogicalPart d s slot).start_lba
          = s.current_ebr_lba + slot.starting_lba ∧
      (mkLogicalPart d s slot).partition_number = s.next_logical) ∧
    (∀ (d : Disk) (base maxp : Nat) (s : EbrState),
      s.current_ebr_lba ≠ 0 → s.parts.length < maxp →
      readLE (d.readBytes (s.current_ebr_lba * d.block_size) d.block_size)
          510 2 = MBR_SIGNATURE →
      (parseMbrSlot (d.readBytes (s.current_ebr_lba * d.block_size)
          d.block_size) 1).os_indicator ≠ PARTITION_TYPE_EMPTY →
      is_extended_partition (parseMbrSlot (d.readBytes
          (s.current_ebr_lba * d.block_size) d.block_size) 1).os_indicator
          = true →
      0 < (parseMbrSlot (d.readBytes (s.current_ebr_lba * d.block_size)
          d.block_size) 1).size_in_lba →
      (ebrStep d base maxp s).stateOf.current_ebr_lba
        = base + (parseMbrSlot (d.readBytes
            (s.current_ebr_lba * d.block_size) d.block_size) 1).starting_lba) ∧
    (∀ (d : Disk) (base maxp : Nat) (s : EbrState),
      (s.current_ebr_lba = 0 → ebrStep d base maxp s = .done s .success) ∧
      (s.current_ebr_lba ≠ 0 → s.parts.length < maxp →
        readLE (d.readBytes (s.current_ebr_lba * d.block_size) d.block_size)
            510 2 ≠ MBR_SIGNATURE →
        ebrStep d base maxp s = .done s .success) ∧
      (s.current_ebr_lba ≠ 0 → s.parts.length < maxp →
        readLE (d.readBytes (s.current_ebr_lba * d.block_size) d.block_size)
            510 2 = MBR_SIGNATURE →
        ((parseMbrSlot (d.readBytes (s.current_ebr_lba * d.block_size)
            d.block_size) 1).os_indicator = PARTITION_TYPE_EMPTY ∨
         is_extended_partition (parseMbrSlot (d.readBytes
            (s.current_ebr_lba * d.block_size) d.block_size) 1).os_indicator
            = false ∨
         (parseMbrSlot (d.readBytes (s.current_ebr_lba * d.block_size)
            d.block_size) 1).size_in_lba = 0) →
        (ebrStep d base maxp s).stateOf.current_ebr_lba = 0)) ∧
    (∀ (d : Disk) (base ebr_lba maxp fuel : Nat) (ps0 : List MbrPartInfo)
      (res : EbrState) (ops : List DiskOp),
      process_extended_partition d base ebr_lba ps0 maxp fuel
          = some (res, ops) →
      ∃ new, res.parts = ps0 ++ new ∧
        new.map (fun p => p.partition_number) = List.range' 5 new.length) ∧
    (∀ (d : Disk) (b : List Nat) (maxp fuel : Nat)
      (parts : List MbrPartInfo) (ops : List DiskOp) (i : Nat),
      parts.length < maxp →
      (parseMbrSlot b i).os_indicator ≠ PARTITION_TYPE_EMPTY →
      (parseMbrSlot b i).size_in_lba ≠ 0 →
      is_extended_partition (parseMbrSlot b i).os_indicator = false →
      mbrPrimaryStep d b maxp fuel (some (parts, ops)) i
          = some (parts ++ [mkPrimaryPart d (parseMbrSlot b i) i], ops) ∧
      (mkPrimaryPart d (parseMbrSlot b i) i).partition_number = i + 1) := by
  refine ⟨?_, ?_, ?_, ?_, ?_, ?_⟩
  · intro d base maxp s h0 hlen hsig hos hsz
    unfold ebrStep
    dsimp only
    rw [if_neg (by push_neg; exact ⟨h0, hlen⟩), if_neg (by simp [hsig])]
    dsimp only [EbrStepResult.stateOf]
    rw [if_pos ⟨hos, hsz⟩]
  · intro d s slot
    exact ⟨rfl, rfl⟩
  · intro d base maxp s h0 hlen hsig hos hext hsz
    unfold ebrStep
    dsimp only
    rw [if_neg (by push_neg; exact ⟨h0, hlen⟩), if_neg (by simp [hsig])]
    dsimp only [EbrStepResult.stateOf]
    rw [if_pos ⟨hos, hext, hsz⟩]
  · intro d base maxp s
    refine ⟨?_, ?_, ?_⟩
    · intro h0
      unfold ebrStep
      rw [if_pos (Or.inl h0)]
    · intro h0 hlen hsig
      unfold ebrStep
      dsimp only
      rw [if_neg (by push_neg; exact ⟨h0, hlen⟩), if_pos hsig]
    · intro h0 hlen hsig hslot
      unfold ebrStep
      dsimp only
      rw [if_neg (by push_neg; exact ⟨h0, hlen⟩), if_neg (by simp [hsig])]
      dsimp only [EbrStepResult.stateOf]
      rw [if_neg ?_]
      rintro ⟨ha, hb, hc⟩
      rcases hslot with hx | hx | hx
      · exact ha hx
      · rw [hx] at hb; cases hb
      · omega
  · intro d base ebr_lba maxp fuel ps0 res ops h
    obtain ⟨new, hp, -, hm⟩ :=
      ebrRun_numbering d base maxp fuel
        { current_ebr_lba := ebr_lba, parts := ps0, next_logical := 5 }
        res ops h
    exact ⟨new, hp, hm⟩
  · intro d b maxp fuel parts ops i hlen hos hsz hext
    refine ⟨?_, rfl⟩
    unfold mbrPrimaryStep
    dsimp only
    rw [if_neg (by omega), if_neg (by push_neg; exact ⟨hos, hsz⟩),
      if_neg (by simp [hext])]

/-- The chain entry state of the EBR walk on the device `Dm`. -/
def c5state : EbrState := { current_ebr_lba := 2, parts := [], next_logical := 5 }

set_option maxRecDepth 1000000 in
/-- Witness for C5: on the device `Dm`, the iteration at the EBR at block 2
emits exactly the logical partition built from that EBR's first slot. -/
theorem ebr_chain_walk_spec_witness :
    (ebrStep Dm 2 8 c5state).stateOf.parts
      = c5state.parts ++ [mkLogicalPart Dm c5state
          (parseMbrSlot (Dm.readBytes (c5state.current_ebr_lba * Dm.block_size)
            Dm.block_size) 0)] :=
  ebr_chain_walk_spec.1 Dm 2 8 c5state (by decide) (by decide) (by decide)
    (by decide) (by decide)

end PocketDarwin
